import Mathlib

/-!
# openMenu "FOLDERS" browser: navigation core of `ui_folders.c`

A shallow embedding of the input side of `src/ui/ui_folders.c`: the file-scope
navigation variables become the fields of `State`, every C function becomes a
function on `State` with the same name, and the collaborators that live in
other translation units (list provider, popups, launchers) are the fields of
`Backend`, acting on an abstract world `W`.

C `int` values are modelled by `Int`: a list is a table held in the console's
memory, so its length and every index computed from it are far inside the
32-bit range, where C arithmetic and integer arithmetic agree.

Drawing code (`draw_gamelist`, `draw_gameart`, theme and texture handling) is
not part of the embedding.
-/

namespace OpenMenu

/-! ## Data model -/

/-- Modal state of the browser (`enum draw_state`). -/
inductive draw_state where
  | DRAW_UI
  | DRAW_MULTIDISC
  | DRAW_EXIT
  | DRAW_MENU
  | DRAW_CREDITS
  | DRAW_CODEBREAKER
  deriving DecidableEq, Repr

/-- Edge-detected button of the frame (`enum control`); `OTHER` stands for every
value that the `switch` of `handle_input_ui` sends to `default`. -/
inductive control where
  | NONE
  | UP
  | DOWN
  | LEFT
  | RIGHT
  | TRIG_L
  | TRIG_R
  | A
  | B
  | X
  | Y
  | OTHER
  deriving DecidableEq, Repr

/-- The fields of `gd_item` that `ui_folders.c` reads.  The three text fields are
C character arrays; a position past the end of the list reads as NUL. -/
structure gd_item where
  name : List Char
  product : List Char
  disc : List Char
  slot_num : Nat
  deriving DecidableEq, Repr

/-- The NUL character that ends a C string. -/
def NUL : Char := Char.ofNat 0

/-- Character `i` of a C character array (`a[i]`). -/
def char_at (a : List Char) (i : Nat) : Char := a.getD i NUL

/-- Truth of `strncmp(a, b, n) == 0`: the first `n` characters agree, the
comparison ending early at a common NUL. -/
def strncmp_eq : Nat → List Char → List Char → Bool
  | 0, _, _ => true
  | n + 1, a, b =>
    if char_at a 0 ≠ char_at b 0 then false
    else if char_at a 0 = NUL then true
    else strncmp_eq n a.tail b.tail

/-- Truth of `strcmp(a, b) == 0`. -/
def strcmp_eq (a b : List Char) : Bool :=
  strncmp_eq (max a.length b.length + 1) a b

/-- A call of a collaborator, named after the function called. -/
inductive Event where
  | list_get
  | list_length
  | list_folder_is_root
  | list_folder_go_back
  | list_folder_enter (slot_num : Nat) (cursor : Int)
  | list_set_folder_root
  | list_set_multidisc (product : List Char)
  | popup_setup
  | menu_setup
  | set_cur_game_item (item : gd_item)
  | bloom_launch (item : gd_item)
  | dreamcast_launch_disc (item : gd_item)
  | dreamcast_launch_cb (item : gd_item)
  | handle_input_menu (input : control)
  | handle_input_credits (input : control)
  | handle_input_multidisc (input : control)
  | handle_input_exit (input : control)
  | handle_input_codebreaker (input : control)
  deriving DecidableEq, Repr

/-- The variables that collaborators can write: `draw_current` and
`navigate_timeout` are handed to `popup_setup` and `menu_setup` by address, and
`start_cb`, `cb_multidisc` are globals shared with the popup code. -/
structure Shared where
  draw_current : draw_state
  navigate_timeout : Int
  start_cb : Int
  cb_multidisc : Int
  deriving DecidableEq, Repr

/-- The functions of other translation units that `ui_folders.c` calls, over an
abstract world `W` (the list provider's folder stack and collections, the
settings, the popup modules).  Their code is not part of this file, so each one
is a parameter. -/
structure Backend (W : Type) where
  list_get : W → Int → gd_item
  list_length : W → Int
  list_folder_is_root : W → Bool
  list_folder_go_back : W → Int × W
  list_folder_enter : Nat → Int → W → W
  list_set_folder_root : W → W
  list_set_multidisc : List Char → W → W
  sf_multidisc : W → Int
  popup_setup : Shared → W → Shared × W
  menu_setup : Shared → W → Shared × W
  set_cur_game_item : gd_item → W → W
  bloom_launch : gd_item → W → W
  dreamcast_launch_disc : gd_item → W → W
  dreamcast_launch_cb : gd_item → W → W
  handle_input_menu : control → Shared → W → Shared × W
  handle_input_credits : control → Shared → W → Shared × W
  handle_input_multidisc : control → Shared → W → Shared × W
  handle_input_exit : control → Shared → W → Shared × W
  handle_input_codebreaker : control → Shared → W → Shared × W

/-- The file-scope variables of `ui_folders.c` that the input handlers use,
together with the collaborators' world, the trace of collaborator calls so far
(`trace`) and the indices of the array reads `list_current[i]` so far (`reads`). -/
structure State (W : Type) where
  list_current : Int → gd_item
  list_len : Int
  current_selected_item : Int
  current_starting_index : Int
  navigate_timeout : Int
  draw_current : draw_state
  direction_last : Bool
  direction_current : Bool
  trig_l_held : Bool
  trig_r_held : Bool
  start_cb : Int
  cb_multidisc : Int
  world : W
  trace : List Event
  reads : List Int

/-! ## Constants -/

def INPUT_TIMEOUT_INITIAL : Int := 18

def INPUT_TIMEOUT_REPEAT : Int := 5

def ITEMS_PER_PAGE : Int := 17

variable {W : Type}

/-- The macro `direction_held`: `(direction_last & direction_current)`. -/
def direction_held (s : State W) : Bool :=
  s.direction_last && s.direction_current

/-! ## Navigation functions -/

/-- Source function `menu_decrement(int amount)`. -/
def menu_decrement (amount : Int) (s : State W) : State W :=
  if direction_held s = true ∧ s.navigate_timeout > 0 then s
  else
    let s1 : State W :=
      if s.current_selected_item < amount then
        if amount = 1 then
          let t : State W :=
            { s with current_selected_item := s.list_len - 1
                     current_starting_index := s.list_len - ITEMS_PER_PAGE }
          if t.current_starting_index < 0 then { t with current_starting_index := 0 } else t
        else
          { s with current_selected_item := 0, current_starting_index := 0 }
      else
        { s with current_selected_item := s.current_selected_item - amount }
    let s2 : State W :=
      if s1.current_selected_item < s1.current_starting_index then
        let t : State W :=
          { s1 with current_starting_index := s1.current_starting_index - amount }
        if t.current_starting_index < 0 then { t with current_starting_index := 0 } else t
      else s1
    { s2 with navigate_timeout :=
        if direction_held s2 = true then INPUT_TIMEOUT_REPEAT else INPUT_TIMEOUT_INITIAL }

/-- Source function `menu_increment(int amount)`. -/
def menu_increment (amount : Int) (s : State W) : State W :=
  if direction_held s = true ∧ s.navigate_timeout > 0 then s
  else
    let s1 : State W :=
      { s with current_selected_item := s.current_selected_item + amount }
    if s1.current_selected_item ≥ s1.list_len then
      let s2 : State W :=
        if amount = 1 then
          { s1 with current_selected_item := 0, current_starting_index := 0 }
        else
          let t : State W :=
            { s1 with current_selected_item := s1.list_len - 1
                      current_starting_index := s1.list_len - ITEMS_PER_PAGE }
          if t.current_starting_index < 0 then { t with current_starting_index := 0 } else t
      { s2 with navigate_timeout :=
          if direction_held s2 = true then INPUT_TIMEOUT_REPEAT else INPUT_TIMEOUT_INITIAL }
    else
      let s2 : State W :=
        if s1.current_selected_item ≥ s1.current_starting_index + ITEMS_PER_PAGE then
          { s1 with current_starting_index := s1.current_starting_index + amount }
        else s1
      { s2 with navigate_timeout :=
          if direction_held s2 = true then INPUT_TIMEOUT_REPEAT else INPUT_TIMEOUT_INITIAL }

/-! ## Calling collaborators -/

/-- Record a collaborator call in the trace. -/
def emit (e : Event) (s : State W) : State W :=
  { s with trace := s.trace ++ [e] }

/-- The array read `list_current[i]`: the item, and the state with the read recorded. -/
def read_list_current (i : Int) (s : State W) : gd_item × State W :=
  (s.list_current i, { s with reads := s.reads ++ [i] })

/-- Call a collaborator that only acts on its own world. -/
def call_world (f : W → W) (e : Event) (s : State W) : State W :=
  { s with world := f s.world, trace := s.trace ++ [e] }

/-- Call a collaborator that can write the shared variables. -/
def call_shared (f : Shared → W → Shared × W) (e : Event) (s : State W) : State W :=
  let r := f ⟨s.draw_current, s.navigate_timeout, s.start_cb, s.cb_multidisc⟩ s.world
  { s with draw_current := r.1.draw_current
           navigate_timeout := r.1.navigate_timeout
           start_cb := r.1.start_cb
           cb_multidisc := r.1.cb_multidisc
           world := r.2
           trace := s.trace ++ [e] }

/-- The expression `item->disc[2] - '0'`.  The text of an item is ASCII (codes up
to 127), where the signedness of C `char` plays no part. -/
def disc_set_of (item : gd_item) : Int :=
  ((char_at item.disc 2).toNat : Int) - (('0' : Char).toNat : Int)

/-! ## Actions -/

/-- Source function `run_cb()` (build without `STANDALONE_BINARY`). -/
def run_cb (E : Backend W) (s : State W) : State W :=
  let r0 := read_list_current s.current_selected_item s
  let disc_set := disc_set_of r0.1
  let s := r0.2
  let hide_multidisc := E.sf_multidisc s.world
  if hide_multidisc ≠ 0 ∧ disc_set > 1 then
    let s : State W := { s with draw_current := draw_state.DRAW_MULTIDISC }
    let s : State W := { s with cb_multidisc := 1 }
    let s := call_shared E.popup_setup Event.popup_setup s
    let r1 := read_list_current s.current_selected_item s
    call_world (E.list_set_multidisc r1.1.product) (Event.list_set_multidisc r1.1.product) r1.2
  else
    let r1 := read_list_current s.current_selected_item s
    call_world (E.dreamcast_launch_cb r1.1) (Event.dreamcast_launch_cb r1.1) r1.2

/-- Source function `menu_accept()` (build without `STANDALONE_BINARY`). -/
def menu_accept (E : Backend W) (s : State W) : State W :=
  if s.navigate_timeout > 0 ∨ s.list_len ≤ 0 then s
  else
    let r0 := read_list_current s.current_selected_item s
    let item := r0.1
    let s := r0.2
    if strncmp_eq 3 item.disc ['D', 'I', 'R'] = true then
      let s : State W :=
        if strcmp_eq item.name ['[', '.', '.', ']'] = true then
          let back := E.list_folder_go_back s.world
          let restored_pos := back.1
          let s : State W :=
            { s with world := back.2, trace := s.trace ++ [Event.list_folder_go_back] }
          let s : State W := emit Event.list_get { s with list_current := E.list_get s.world }
          let s : State W := emit Event.list_length { s with list_len := E.list_length s.world }
          let s : State W := { s with current_selected_item := restored_pos }
          if s.current_selected_item < ITEMS_PER_PAGE then
            { s with current_starting_index := 0 }
          else
            let t : State W :=
              { s with current_starting_index := s.current_selected_item - ITEMS_PER_PAGE / 2 }
            let t : State W :=
              if t.current_starting_index + ITEMS_PER_PAGE > t.list_len then
                { t with current_starting_index := t.list_len - ITEMS_PER_PAGE }
              else t
            if t.current_starting_index < 0 then { t with current_starting_index := 0 } else t
        else if char_at item.product 0 = 'F' then
          let s : State W :=
            call_world (E.list_folder_enter item.slot_num s.current_selected_item)
              (Event.list_folder_enter item.slot_num s.current_selected_item) s
          let s : State W := emit Event.list_get { s with list_current := E.list_get s.world }
          let s : State W := emit Event.list_length { s with list_len := E.list_length s.world }
          { s with current_selected_item := 0, current_starting_index := 0 }
        else s
      { s with navigate_timeout := INPUT_TIMEOUT_INITIAL * 2
               draw_current := draw_state.DRAW_UI }
    else
      let disc_set := disc_set_of item
      let hide_multidisc := E.sf_multidisc s.world
      if hide_multidisc ≠ 0 ∧ disc_set > 1 then
        let s : State W := { s with cb_multidisc := 0 }
        let s : State W := { s with draw_current := draw_state.DRAW_MULTIDISC }
        let s := call_shared E.popup_setup Event.popup_setup s
        call_world (E.list_set_multidisc item.product) (Event.list_set_multidisc item.product) s
      else if strncmp_eq 3 item.disc ['P', 'S', '1'] = true then
        call_world (E.bloom_launch item) (Event.bloom_launch item) s
      else
        call_world (E.dreamcast_launch_disc item) (Event.dreamcast_launch_disc item) s

/-- Source function `menu_cb()`. -/
def menu_cb (E : Backend W) (s : State W) : State W :=
  if s.navigate_timeout > 0 ∨ s.list_len ≤ 0 then s
  else
    let r0 := read_list_current s.current_selected_item s
    if strncmp_eq 3 r0.1.disc ['D', 'I', 'R'] = true then r0.2
    else
      let r1 := read_list_current r0.2.current_selected_item r0.2
      if strncmp_eq 3 r1.1.disc ['P', 'S', '1'] = true then
        let r2 := read_list_current r1.2.current_selected_item r1.2
        call_world (E.bloom_launch r2.1) (Event.bloom_launch r2.1) r2.2
      else
        let s : State W := { r1.2 with start_cb := 0 }
        let s : State W := { s with draw_current := draw_state.DRAW_CODEBREAKER }
        call_shared E.menu_setup Event.menu_setup s

/-- Source function `menu_settings()`. -/
def menu_settings (E : Backend W) (s : State W) : State W :=
  if s.navigate_timeout > 0 then s
  else
    let s : State W := { s with draw_current := draw_state.DRAW_MENU }
    call_shared E.menu_setup Event.menu_setup s

/-- Source function `menu_exit()`. -/
def menu_exit (E : Backend W) (s : State W) : State W :=
  if s.navigate_timeout > 0 then s
  else
    let r0 := read_list_current s.current_selected_item s
    let s := call_world (E.set_cur_game_item r0.1) (Event.set_cur_game_item r0.1) r0.2
    let s : State W := { s with draw_current := draw_state.DRAW_EXIT }
    call_shared E.popup_setup Event.popup_setup s

/-! ## Input handlers -/

/-- What `INPT_TriggerPressed` answers during one frame, for `TRIGGER_L` and for
`TRIGGER_R`. -/
structure Triggers where
  TRIGGER_L : Bool
  TRIGGER_R : Bool
  deriving DecidableEq, Repr

/-- Source function `handle_input_ui(enum control input)`; `trg` is the state of
the two analog triggers that `INPT_TriggerPressed` reports. -/
def handle_input_ui (E : Backend W) (trg : Triggers) (input : control) (s : State W) :
    State W :=
  let s : State W := { s with direction_last := s.direction_current }
  let s : State W := { s with direction_current := false }
  if trg.TRIGGER_L = true ∧ trg.TRIGGER_R = true then
    if s.trig_l_held = false ∨ s.trig_r_held = false then
      let s : State W := { s with trig_l_held := true }
      let s : State W := { s with trig_r_held := true }
      let s : State W := emit Event.list_folder_is_root s
      if E.list_folder_is_root s.world = false then
        let back := E.list_folder_go_back s.world
        let restored_pos := back.1
        let s : State W :=
          { s with world := back.2, trace := s.trace ++ [Event.list_folder_go_back] }
        let s : State W := emit Event.list_get { s with list_current := E.list_get s.world }
        let s : State W := emit Event.list_length { s with list_len := E.list_length s.world }
        let s : State W := { s with current_selected_item := restored_pos }
        let s : State W :=
          if s.current_selected_item < ITEMS_PER_PAGE then
            { s with current_starting_index := 0 }
          else
            let t : State W :=
              { s with current_starting_index := s.current_selected_item - ITEMS_PER_PAGE / 2 }
            let t : State W :=
              if t.current_starting_index + ITEMS_PER_PAGE > t.list_len then
                { t with current_starting_index := t.list_len - ITEMS_PER_PAGE }
              else t
            if t.current_starting_index < 0 then { t with current_starting_index := 0 } else t
        { s with navigate_timeout := INPUT_TIMEOUT_INITIAL * 2 }
      else s
    else s
  else
    let s : State W := { s with trig_l_held := false }
    let s : State W := { s with trig_r_held := false }
    match input with
    | control.UP => menu_decrement 1 { s with direction_current := true }
    | control.DOWN => menu_increment 1 { s with direction_current := true }
    | control.LEFT => menu_decrement 5 { s with direction_current := true }
    | control.TRIG_L => menu_decrement 5 { s with direction_current := true }
    | control.RIGHT => menu_increment 5 { s with direction_current := true }
    | control.TRIG_R => menu_increment 5 { s with direction_current := true }
    | control.A => menu_accept E s
    | control.X => menu_settings E s
    | control.Y => menu_exit E s
    | control.B => menu_cb E s
    | control.NONE => s
    | control.OTHER => s

/-- Source function `FOLDERS_setup()`, without the cursor animation variables. -/
def FOLDERS_setup (E : Backend W) (s : State W) : State W :=
  let s := call_world E.list_set_folder_root Event.list_set_folder_root s
  let s : State W := emit Event.list_get { s with list_current := E.list_get s.world }
  let s : State W := emit Event.list_length { s with list_len := E.list_length s.world }
  { s with current_selected_item := 0
           current_starting_index := 0
           navigate_timeout := INPUT_TIMEOUT_INITIAL
           draw_current := draw_state.DRAW_UI
           trig_l_held := false
           trig_r_held := false }

/-- Source function `FOLDERS_handle_input(unsigned int button)`: one frame of input. -/
def FOLDERS_handle_input (E : Backend W) (trg : Triggers) (button : control) (s : State W) :
    State W :=
  let input_current := button
  let s : State W :=
    match s.draw_current with
    | draw_state.DRAW_MENU =>
      call_shared (E.handle_input_menu input_current) (Event.handle_input_menu input_current) s
    | draw_state.DRAW_CREDITS =>
      call_shared (E.handle_input_credits input_current)
        (Event.handle_input_credits input_current) s
    | draw_state.DRAW_MULTIDISC =>
      call_shared (E.handle_input_multidisc input_current)
        (Event.handle_input_multidisc input_current) s
    | draw_state.DRAW_EXIT =>
      call_shared (E.handle_input_exit input_current) (Event.handle_input_exit input_current) s
    | draw_state.DRAW_CODEBREAKER =>
      let s := call_shared (E.handle_input_codebreaker input_current)
        (Event.handle_input_codebreaker input_current) s
      if s.start_cb ≠ 0 then run_cb E s else s
    | draw_state.DRAW_UI => handle_input_ui E trg input_current s
  { s with navigate_timeout := s.navigate_timeout - 1 }

/-! ## Sequences of calls and of frames -/

/-- The four moves of the browser: `menu_decrement(1)`, `menu_decrement(5)`,
`menu_increment(1)`, `menu_increment(5)`. -/
inductive Move where
  | dec1
  | dec5
  | inc1
  | inc5
  deriving DecidableEq, Repr

/-- The call that a move stands for. -/
def Move.apply (m : Move) (s : State W) : State W :=
  match m with
  | Move.dec1 => menu_decrement 1 s
  | Move.dec5 => menu_decrement 5 s
  | Move.inc1 => menu_increment 1 s
  | Move.inc5 => menu_increment 5 s

/-- One call of a move function together with the debounce state in which it is
made: between two calls the frame loop rewrites `direction_last`,
`direction_current` and `navigate_timeout`, so a sequence of calls may meet any
values of the three. -/
structure MoveCall where
  move : Move
  direction_last : Bool
  direction_current : Bool
  navigate_timeout : Int
  deriving DecidableEq, Repr

/-- Make one call in the debounce state it names. -/
def MoveCall.run (c : MoveCall) (s : State W) : State W :=
  c.move.apply { s with direction_last := c.direction_last
                        direction_current := c.direction_current
                        navigate_timeout := c.navigate_timeout }

/-- Make a sequence of calls, first to last. -/
def run_calls (cs : List MoveCall) (s : State W) : State W :=
  cs.foldl (fun t c => c.run t) s

/-- Run a sequence of frames, first to last; each frame carries its trigger
state and its button. -/
def run_frames (E : Backend W) (fs : List (Triggers × control)) (s : State W) : State W :=
  fs.foldl (fun t f => FOLDERS_handle_input E f.1 f.2 t) s

/-- Number of calls of `list_folder_go_back` in a trace. -/
def go_back_calls (tr : List Event) : Nat :=
  tr.count Event.list_folder_go_back

/-! ## The list provider, from the specification

The list provider (`backend/gd_list.c`) is a collaborator whose code is outside
`ui_folders.c`.  Where a property speaks about its folder stack, the stack is
modelled from the specification of the Folder Traversal Controller. -/

/-- Modelled from the spec: a FolderFrame, the element of the traversal stack of
the list provider (missing: `backend/gd_list.c`).  It holds the folder
identifier entered and the selected index that was active at the moment of
entry. -/
structure FolderFrame where
  folder_id : Nat
  saved_cursor : Int
  deriving DecidableEq, Repr

/-- Modelled from the spec: the state of the list provider (missing:
`backend/gd_list.c`): the stack of FolderFrames, innermost first, whose depth
is the folder nesting depth and which is empty at root, and the collections,
`contents none` for the root and `contents (some id)` for the folder `id`. -/
structure Catalog where
  stack : List FolderFrame
  contents : Option Nat → List gd_item

/-- Modelled from the spec: the synthetic first entry `[..]` (parent-reference
item) present in every non-root list (missing: `backend/gd_list.c`); it is a
directory entry recognized by its name. -/
def parent_ref : gd_item :=
  { name := ['[', '.', '.', ']'], product := [], disc := ['D', 'I', 'R'], slot_num := 0 }

/-- Modelled from the spec: the active collection (`get_active_list`, missing:
`backend/gd_list.c`): the root collection at root, otherwise the contents of
the folder of the top frame behind the `[..]` entry. -/
def Catalog.active (c : Catalog) : List gd_item :=
  match c.stack with
  | [] => c.contents none
  | f :: _ => parent_ref :: c.contents (some f.folder_id)

/-- Modelled from the spec: `list_get` (missing: `backend/gd_list.c`), the active
collection as the array the core indexes. -/
def Catalog.list_get (c : Catalog) (i : Int) : gd_item :=
  if 0 ≤ i then c.active.getD i.toNat { name := [], product := [], disc := [], slot_num := 0 }
  else { name := [], product := [], disc := [], slot_num := 0 }

/-- Modelled from the spec: `list_length` (`get_active_length`, missing:
`backend/gd_list.c`). -/
def Catalog.list_length (c : Catalog) : Int := c.active.length

/-- Modelled from the spec: `list_folder_is_root` (`is_at_root`, missing:
`backend/gd_list.c`): root has no frame. -/
def Catalog.list_folder_is_root (c : Catalog) : Bool := c.stack.isEmpty

/-- Modelled from the spec: `list_folder_enter` (`enter(folder_id, current_cursor)`,
missing: `backend/gd_list.c`): pushes a FolderFrame with the folder and the
cursor; the active collection becomes the folder's contents. -/
def Catalog.list_folder_enter (folder_id : Nat) (current_cursor : Int) (c : Catalog) : Catalog :=
  { c with stack := { folder_id := folder_id, saved_cursor := current_cursor } :: c.stack }

/-- Modelled from the spec: `list_folder_go_back` (`go_back`, missing:
`backend/gd_list.c`): pops the top FolderFrame and returns its saved cursor; the
active collection becomes the parent's.  At root it is a no-op; the spec has it
return the caller's current cursor there, which the call does not carry, and
the model answers 0. -/
def Catalog.list_folder_go_back (c : Catalog) : Int × Catalog :=
  match c.stack with
  | [] => (0, c)
  | f :: rest => (f.saved_cursor, { c with stack := rest })

/-- Modelled from the spec: `list_set_folder_root` (`set_root`, missing:
`backend/gd_list.c`): back to the root collection, with no frame. -/
def Catalog.list_set_folder_root (c : Catalog) : Catalog :=
  { c with stack := [] }

/-- Modelled from the spec: the collaborators with the list provider's folder
functions replaced by the stack model (missing: `backend/gd_list.c`); the
other collaborators are those of `B`. -/
def catalog_backend (B : Backend Catalog) : Backend Catalog :=
  { B with list_get := Catalog.list_get
           list_length := Catalog.list_length
           list_folder_is_root := Catalog.list_folder_is_root
           list_folder_go_back := Catalog.list_folder_go_back
           list_folder_enter := Catalog.list_folder_enter
           list_set_folder_root := Catalog.list_set_folder_root }

/-! ## Concrete collaborators and states, for evaluation -/

/-- Collaborators over the stack model of which every one outside the list
provider does nothing. -/
def idle_backend : Backend Catalog :=
  catalog_backend
    { list_get := Catalog.list_get
      list_length := Catalog.list_length
      list_folder_is_root := Catalog.list_folder_is_root
      list_folder_go_back := Catalog.list_folder_go_back
      list_folder_enter := Catalog.list_folder_enter
      list_set_folder_root := Catalog.list_set_folder_root
      list_set_multidisc := fun _ w => w
      sf_multidisc := fun _ => 1
      popup_setup := fun sh w => (sh, w)
      menu_setup := fun sh w => (sh, w)
      set_cur_game_item := fun _ w => w
      bloom_launch := fun _ w => w
      dreamcast_launch_disc := fun _ w => w
      dreamcast_launch_cb := fun _ w => w
      handle_input_menu := fun _ sh w => (sh, w)
      handle_input_credits := fun _ sh w => (sh, w)
      handle_input_multidisc := fun _ sh w => (sh, w)
      handle_input_exit := fun _ sh w => (sh, w)
      handle_input_codebreaker := fun _ sh w => (sh, w) }

/-- A single-disc game entry named by its slot. -/
def game_item (n : Nat) : gd_item :=
  { name := ['G', 'A', 'M', 'E'], product := ['T', '-', '1'], disc := ['1', '/', '1'],
    slot_num := n }

/-- A folder entry with slot number `n`. -/
def folder_item (n : Nat) : gd_item :=
  { name := ['[', 'R', 'P', 'G', ']'], product := ['F'], disc := ['D', 'I', 'R'],
    slot_num := n }

/-- A catalog at root whose root collection is `root` and in which every folder
holds three games. -/
def sample_catalog (root : List gd_item) : Catalog :=
  { stack := []
    contents := fun o =>
      match o with
      | none => root
      | some _ => [game_item 1, game_item 2, game_item 3] }

/-- The state in which the variables have the values of their C initializers
(`current_selected_item = 0`, `current_starting_index = 0`,
`navigate_timeout = INPUT_TIMEOUT_INITIAL`, `draw_current = DRAW_UI`, both
direction flags and both trigger latches false), over the world `w`, before any
list has been loaded. -/
def boot_state (w : W) : State W :=
  { list_current := fun _ => { name := [], product := [], disc := [], slot_num := 0 }
    list_len := 0
    current_selected_item := 0
    current_starting_index := 0
    navigate_timeout := INPUT_TIMEOUT_INITIAL
    draw_current := draw_state.DRAW_UI
    direction_last := false
    direction_current := false
    trig_l_held := false
    trig_r_held := false
    start_cb := 0
    cb_multidisc := 0
    world := w
    trace := []
    reads := [] }

/-- The activation state over a root collection of `n` games: `FOLDERS_setup` run
from the boot state. -/
def activation_state (n : Nat) : State Catalog :=
  FOLDERS_setup idle_backend
    (boot_state (sample_catalog ((List.range n).map game_item)))

/-- A root collection of `n` entries in which the entry at an even index `i` is
the folder with slot number `i / 2 + 1` and the others are games. -/
def sample_root (n : Nat) : List gd_item :=
  (List.range n).map (fun i => if i % 2 = 0 then folder_item (i / 2 + 1) else game_item i)

/-- A state whose list is the active collection of the catalog `w`, with the
given selection, viewport start and timeout, and the other variables as at
boot. -/
def synced_state (w : Catalog) (sel start timeout : Int) : State Catalog :=
  { boot_state w with list_current := Catalog.list_get w
                      list_len := Catalog.list_length w
                      current_selected_item := sel
                      current_starting_index := start
                      navigate_timeout := timeout }

/-! ## Predicates used in the statements -/

/-- The cursor invariants: the viewport start is not negative, the selection
lies in the window of `ITEMS_PER_PAGE` rows that starts there, and the
selection is below the list length. -/
def window_inv (s : State W) : Prop :=
  0 ≤ s.current_starting_index ∧ s.current_starting_index ≤ s.current_selected_item ∧
    s.current_selected_item ≤ s.current_starting_index + (ITEMS_PER_PAGE - 1) ∧
    s.current_selected_item < s.list_len

/-- The move that the `switch` of `handle_input_ui` makes for a directional
button: UP and DOWN step by 1, LEFT, TRIG_L, RIGHT and TRIG_R jump by 5; no move
for any other button. -/
def control.move_of : control → Option Move
  | control.UP => some Move.dec1
  | control.DOWN => some Move.inc1
  | control.LEFT => some Move.dec5
  | control.TRIG_L => some Move.dec5
  | control.RIGHT => some Move.inc5
  | control.TRIG_R => some Move.inc5
  | _ => none

/-- The state in which a frame with a directional button calls its move function:
`handle_input_ui` has copied `direction_current` to `direction_last`, set
`direction_current` and cleared both trigger latches. -/
def at_move_call (s : State W) : State W :=
  { s with direction_last := s.direction_current
           direction_current := true
           trig_l_held := false
           trig_r_held := false }

/-- A title of three discs: disc 1 of 3. -/
def multidisc_item : gd_item :=
  { name := ['S', 'A', 'G', 'A'], product := ['T', '-', '3'], disc := ['1', '/', '3'],
    slot_num := 5 }

/-- A PlayStation title, which has its own launch path. -/
def ps1_item : gd_item :=
  { name := ['P', 'S', 'X'], product := ['S', 'L', 'U', 'S'], disc := ['P', 'S', '1'],
    slot_num := 6 }

/-- The collaborators of `idle_backend` with the multi-disc setting
`sf_multidisc[0]` equal to `flag`. -/
def idle_backend_with_multidisc (flag : Int) : Backend Catalog :=
  { idle_backend with sf_multidisc := fun _ => flag }

/-- A title whose disc field is malformed: the disc-count character `disc[2]` is
the letter 'A'. -/
def malformed_item : gd_item :=
  { name := ['O', 'D', 'D'], product := ['T', '-', '9'], disc := ['1', '/', 'A'],
    slot_num := 8 }

/-- The value of `navigate_timeout` at the end of frame `k >= 1` of a held
direction: 17 after the first frame, one less on each frame down to 0 after
frame 18, then 4, 3, 2, 1, 0 over and over from frame 19 on. -/
def typematic_timeout (k : Nat) : Int :=
  if k ≤ 18 then 18 - (k : Int) else 4 - (((k : Int) - 19) % 5)

/-! # Theorems -/

/-! ## Moves: cursor invariants (C1) -/

/-- `menu_decrement` does not change the list length. -/
theorem menu_decrement_list_len (a : Int) (s : State W) :
    (menu_decrement a s).list_len = s.list_len := by
  simp only [menu_decrement]
  split_ifs <;> rfl

/-- `menu_increment` does not change the list length. -/
theorem menu_increment_list_len (a : Int) (s : State W) :
    (menu_increment a s).list_len = s.list_len := by
  simp only [menu_increment]
  split_ifs <;> rfl

/-- `menu_decrement(1)` keeps the cursor invariants. -/
theorem menu_decrement_one_inv (s : State W) (h : window_inv s) :
    window_inv (menu_decrement 1 s) := by
  unfold window_inv at *
  simp only [menu_decrement, ITEMS_PER_PAGE] at *
  split_ifs <;> simp_all <;> omega

/-- `menu_decrement(5)` keeps the cursor invariants. -/
theorem menu_decrement_five_inv (s : State W) (h : window_inv s) :
    window_inv (menu_decrement 5 s) := by
  unfold window_inv at *
  simp only [menu_decrement, ITEMS_PER_PAGE] at *
  split_ifs <;> simp_all <;> omega

/-- `menu_increment(1)` keeps the cursor invariants. -/
theorem menu_increment_one_inv (s : State W) (h : window_inv s) :
    window_inv (menu_increment 1 s) := by
  unfold window_inv at *
  simp only [menu_increment, ITEMS_PER_PAGE] at *
  split_ifs <;> simp_all <;> omega

/-- `menu_increment(5)` keeps the cursor invariants. -/
theorem menu_increment_five_inv (s : State W) (h : window_inv s) :
    window_inv (menu_increment 5 s) := by
  unfold window_inv at *
  simp only [menu_increment, ITEMS_PER_PAGE] at *
  split_ifs <;> simp_all <;> omega

/-- A move does not change the list length. -/
theorem move_apply_list_len (m : Move) (s : State W) : (m.apply s).list_len = s.list_len := by
  cases m <;> simp only [Move.apply, menu_decrement_list_len, menu_increment_list_len]

/-- A move keeps the cursor invariants. -/
theorem move_apply_inv (m : Move) (s : State W) (h : window_inv s) : window_inv (m.apply s) := by
  cases m
  · exact menu_decrement_one_inv s h
  · exact menu_decrement_five_inv s h
  · exact menu_increment_one_inv s h
  · exact menu_increment_five_inv s h

/-- A call in any debounce state does not change the list length. -/
theorem move_call_list_len (c : MoveCall) (s : State W) : (c.run s).list_len = s.list_len := by
  simp only [MoveCall.run, move_apply_list_len]

/-- A call in any debounce state keeps the cursor invariants. -/
theorem move_call_inv (c : MoveCall) (s : State W) (h : window_inv s) : window_inv (c.run s) := by
  unfold MoveCall.run
  apply move_apply_inv
  exact h

/-- A sequence of calls makes its first call, then the rest. -/
theorem run_calls_cons (c : MoveCall) (cs : List MoveCall) (s : State W) :
    run_calls (c :: cs) s = run_calls cs (c.run s) := rfl

/-- A sequence of calls does not change the list length. -/
theorem run_calls_list_len (cs : List MoveCall) (s : State W) :
    (run_calls cs s).list_len = s.list_len := by
  induction cs generalizing s with
  | nil => rfl
  | cons c cs ih => rw [run_calls_cons, ih, move_call_list_len]

/-- A sequence of calls keeps the cursor invariants. -/
theorem run_calls_inv (cs : List MoveCall) (s : State W) (h : window_inv s) :
    window_inv (run_calls cs s) := by
  induction cs generalizing s with
  | nil => exact h
  | cons c cs ih => rw [run_calls_cons]; exact ih _ (move_call_inv c s h)

/-- C1: when the list is not empty, each of `menu_decrement(1)`, `menu_decrement(5)`,
`menu_increment(1)`, `menu_increment(5)`, honored by the debounce gate or not,
takes a state with `0 <= current_starting_index <= current_selected_item <=
current_starting_index + 16` and `current_selected_item < list_len` to a state
with `0 <= current_selected_item < list_len` and `current_starting_index <=
current_selected_item <= current_starting_index + 16`; hence both hold after
every sequence of such calls made from a state with selection 0 and viewport 0,
whatever the debounce state of each call. -/
theorem C1_moves_keep_cursor_in_list_and_window (s : State W) (hlen : 0 < s.list_len) :
    (0 ≤ s.current_starting_index ∧ s.current_starting_index ≤ s.current_selected_item ∧
        s.current_selected_item ≤ s.current_starting_index + 16 ∧
        s.current_selected_item < s.list_len →
      ∀ m : Move,
        (m.apply s).list_len = s.list_len ∧
        0 ≤ (m.apply s).current_selected_item ∧
        (m.apply s).current_selected_item < s.list_len ∧
        (m.apply s).current_starting_index ≤ (m.apply s).current_selected_item ∧
        (m.apply s).current_selected_item ≤ (m.apply s).current_starting_index + 16) ∧
    (s.current_selected_item = 0 ∧ s.current_starting_index = 0 →
      ∀ cs : List MoveCall,
        (run_calls cs s).list_len = s.list_len ∧
        0 ≤ (run_calls cs s).current_selected_item ∧
        (run_calls cs s).current_selected_item < s.list_len ∧
        (run_calls cs s).current_starting_index ≤ (run_calls cs s).current_selected_item ∧
        (run_calls cs s).current_selected_item ≤ (run_calls cs s).current_starting_index + 16) := by
  constructor
  · intro h m
    have hs : window_inv s := by
      unfold window_inv ITEMS_PER_PAGE
      omega
    have ht := move_apply_inv m s hs
    have hl := move_apply_list_len m s
    unfold window_inv ITEMS_PER_PAGE at ht
    omega
  · intro h cs
    have hs : window_inv s := by
      unfold window_inv ITEMS_PER_PAGE
      omega
    have ht := run_calls_inv cs s hs
    have hl := run_calls_list_len cs s
    unfold window_inv ITEMS_PER_PAGE at ht
    omega

/-- Witness of C1 on a list of 21 games: the hypothesis holds in the activation
state, and after five calls (page down twice, a held and gated page down, up,
page up) the cursor is in the list and in the window. -/
theorem C1_witness :
    0 < (activation_state 21).list_len ∧
    0 ≤ (run_calls [⟨Move.inc5, false, true, 0⟩, ⟨Move.inc5, false, true, 17⟩,
      ⟨Move.inc5, true, true, 16⟩, ⟨Move.dec1, false, true, 4⟩, ⟨Move.dec5, false, true, 0⟩]
        (activation_state 21)).current_selected_item ∧
    (run_calls [⟨Move.inc5, false, true, 0⟩, ⟨Move.inc5, false, true, 17⟩,
      ⟨Move.inc5, true, true, 16⟩, ⟨Move.dec1, false, true, 4⟩, ⟨Move.dec5, false, true, 0⟩]
        (activation_state 21)).current_selected_item < (activation_state 21).list_len :=
  ⟨by decide,
    ((C1_moves_keep_cursor_in_list_and_window (activation_state 21) (by decide)).2
      ⟨by decide, by decide⟩ _).2.1,
    ((C1_moves_keep_cursor_in_list_and_window (activation_state 21) (by decide)).2
      ⟨by decide, by decide⟩ _).2.2.1⟩

/-! ## Moves: range of the viewport start (C2) -/

/-- C2, evaluated on the code: on a list of 21 entries, four separate presses of
RIGHT after activation (frames RIGHT, NONE, RIGHT, NONE, RIGHT, NONE, RIGHT with no
trigger pressed) leave `current_selected_item = 20` and
`current_starting_index = 5`, above `max(0, list_len - 17) = 4`: the page-down
path of `menu_increment` adds the amount to the viewport start without the
clamp to the last page; four direct calls of `menu_increment(5)` with
the direction not held give the same viewport start. -/
theorem C2_page_down_leaves_viewport_past_last_page :
    (run_frames idle_backend
        [(⟨false, false⟩, control.RIGHT), (⟨false, false⟩, control.NONE),
         (⟨false, false⟩, control.RIGHT), (⟨false, false⟩, control.NONE),
         (⟨false, false⟩, control.RIGHT), (⟨false, false⟩, control.NONE),
         (⟨false, false⟩, control.RIGHT)]
        (activation_state 21)).list_len = 21 ∧
    (run_frames idle_backend
        [(⟨false, false⟩, control.RIGHT), (⟨false, false⟩, control.NONE),
         (⟨false, false⟩, control.RIGHT), (⟨false, false⟩, control.NONE),
         (⟨false, false⟩, control.RIGHT), (⟨false, false⟩, control.NONE),
         (⟨false, false⟩, control.RIGHT)]
        (activation_state 21)).current_selected_item = 20 ∧
    (run_frames idle_backend
        [(⟨false, false⟩, control.RIGHT), (⟨false, false⟩, control.NONE),
         (⟨false, false⟩, control.RIGHT), (⟨false, false⟩, control.NONE),
         (⟨false, false⟩, control.RIGHT), (⟨false, false⟩, control.NONE),
         (⟨false, false⟩, control.RIGHT)]
        (activation_state 21)).current_starting_index = 5 ∧
    (run_calls [⟨Move.inc5, false, true, 0⟩, ⟨Move.inc5, false, true, 0⟩,
        ⟨Move.inc5, false, true, 0⟩, ⟨Move.inc5, false, true, 0⟩]
        (activation_state 21)).current_starting_index = 5 ∧
    ¬ ((run_frames idle_backend
        [(⟨false, false⟩, control.RIGHT), (⟨false, false⟩, control.NONE),
         (⟨false, false⟩, control.RIGHT), (⟨false, false⟩, control.NONE),
         (⟨false, false⟩, control.RIGHT), (⟨false, false⟩, control.NONE),
         (⟨false, false⟩, control.RIGHT)]
        (activation_state 21)).current_starting_index ≤
      max 0 ((run_frames idle_backend
        [(⟨false, false⟩, control.RIGHT), (⟨false, false⟩, control.NONE),
         (⟨false, false⟩, control.RIGHT), (⟨false, false⟩, control.NONE),
         (⟨false, false⟩, control.RIGHT), (⟨false, false⟩, control.NONE),
         (⟨false, false⟩, control.RIGHT)]
        (activation_state 21)).list_len - 17)) := by
  decide

/-! ## Moves on an empty list (C3) -/

/-- C3, evaluated on the code: with `list_len = 0`, in the activation state, an
honored `menu_decrement(1)` and an honored `menu_increment(5)` both leave
`current_selected_item = -1` (and `current_starting_index = 0`), also through
a frame with UP or with RIGHT; `menu_decrement(5)` and `menu_increment(1)` leave
the cursor at 0. -/
theorem C3_moves_on_empty_list_set_cursor_to_minus_one :
    (activation_state 0).list_len = 0 ∧
    (activation_state 0).current_selected_item = 0 ∧
    (activation_state 0).current_starting_index = 0 ∧
    (menu_decrement 1 (activation_state 0)).current_selected_item = -1 ∧
    (menu_decrement 1 (activation_state 0)).current_starting_index = 0 ∧
    (menu_increment 5 (activation_state 0)).current_selected_item = -1 ∧
    (menu_increment 5 (activation_state 0)).current_starting_index = 0 ∧
    (menu_decrement 5 (activation_state 0)).current_selected_item = 0 ∧
    (menu_increment 1 (activation_state 0)).current_selected_item = 0 ∧
    (FOLDERS_handle_input idle_backend ⟨false, false⟩ control.UP
      (activation_state 0)).current_selected_item = -1 ∧
    (FOLDERS_handle_input idle_backend ⟨false, false⟩ control.RIGHT
      (activation_state 0)).current_selected_item = -1 := by
  decide

/-! ## Moves at the boundaries (C4, C5) -/

/-- C4: on a non-empty list, an honored `menu_decrement(1)` at
`current_selected_item = 0` sets `current_selected_item = list_len - 1` and
`current_starting_index = max(0, list_len - 17)`, and an honored
`menu_increment(1)` at `current_selected_item = list_len - 1` sets
`current_selected_item = 0` and `current_starting_index = 0`. -/
theorem C4_single_step_wraps (s : State W) (hlen : 0 < s.list_len)
    (hgate : s.navigate_timeout ≤ 0 ∨ direction_held s = false) :
    (s.current_selected_item = 0 →
      (menu_decrement 1 s).current_selected_item = s.list_len - 1 ∧
      (menu_decrement 1 s).current_starting_index = max 0 (s.list_len - 17)) ∧
    (s.current_selected_item = s.list_len - 1 →
      (menu_increment 1 s).current_selected_item = 0 ∧
      (menu_increment 1 s).current_starting_index = 0) := by
  have hg : ¬ (direction_held s = true ∧ s.navigate_timeout > 0) := by
    rintro ⟨h1, h2⟩
    rcases hgate with h | h
    · omega
    · rw [h1] at h; cases h
  constructor
  · intro h0
    simp only [menu_decrement, ITEMS_PER_PAGE, if_neg hg]
    split_ifs <;> simp_all <;> omega
  · intro h0
    simp only [menu_increment, ITEMS_PER_PAGE, if_neg hg]
    split_ifs <;> simp_all

/-- Witness of C4 on a list of 21 games in the activation state, where the
selection 0 is also the place of an UP press: the selection wraps to 20 with
the viewport at 4. -/
theorem C4_witness :
    0 < (activation_state 21).list_len ∧
    (menu_decrement 1 (activation_state 21)).current_selected_item = 20 ∧
    (menu_decrement 1 (activation_state 21)).current_starting_index = 4 :=
  ⟨by decide,
    (C4_single_step_wraps (activation_state 21) (by decide) (Or.inr (by decide))).1 (by decide)⟩

/-- C5: on a non-empty list, an honored `menu_decrement(5)` with
`current_selected_item < 5` sets `current_selected_item = 0` and
`current_starting_index = 0`, without wrapping, and an honored
`menu_increment(5)` with `current_selected_item + 5 >= list_len` sets
`current_selected_item = list_len - 1` and
`current_starting_index = max(0, list_len - 17)`. -/
theorem C5_page_jump_clamps (s : State W) (hlen : 0 < s.list_len)
    (hgate : s.navigate_timeout ≤ 0 ∨ direction_held s = false) :
    (s.current_selected_item < 5 →
      (menu_decrement 5 s).current_selected_item = 0 ∧
      (menu_decrement 5 s).current_starting_index = 0) ∧
    (s.current_selected_item + 5 ≥ s.list_len →
      (menu_increment 5 s).current_selected_item = s.list_len - 1 ∧
      (menu_increment 5 s).current_starting_index = max 0 (s.list_len - 17)) := by
  have hg : ¬ (direction_held s = true ∧ s.navigate_timeout > 0) := by
    rintro ⟨h1, h2⟩
    rcases hgate with h | h
    · omega
    · rw [h1] at h; cases h
  constructor
  · intro h0
    simp only [menu_decrement, ITEMS_PER_PAGE, if_neg hg]
    split_ifs <;> simp_all
  · intro h0
    simp only [menu_increment, ITEMS_PER_PAGE, if_neg hg]
    split_ifs <;> simp_all <;> omega

/-- Witness of C5 on a list of 21 games with the selection moved to index 2: page
up goes to index 0 with the viewport at 0 and does not wrap. -/
theorem C5_witness :
    0 < (menu_increment 1 (menu_increment 1 (activation_state 21))).list_len ∧
    (menu_increment 1 (menu_increment 1 (activation_state 21))).current_selected_item = 2 ∧
    (menu_decrement 5
      (menu_increment 1 (menu_increment 1 (activation_state 21)))).current_selected_item = 0 ∧
    (menu_decrement 5
      (menu_increment 1 (menu_increment 1 (activation_state 21)))).current_starting_index = 0 :=
  ⟨by decide, by decide,
    (C5_page_jump_clamps (menu_increment 1 (menu_increment 1 (activation_state 21)))
      (by decide) (Or.inr (by decide))).1 (by decide)⟩

/-! ## Go-back: restored cursor and viewport (C6) -/

/-- C6: let a go-back return the restored cursor `r` into a parent list of length
`n`.  Through the `[..]` entry (`menu_accept`) and through the L+R combo
(`handle_input_ui`) alike, afterwards `current_selected_item = r`, and
`current_starting_index` is 0 if `r < 17` and `max(0, min(r - 8, n - 17))`
otherwise. -/
theorem C6_go_back_restores_cursor_and_viewport (E : Backend W) (s : State W) (r n : Int)
    (hr : (E.list_folder_go_back s.world).1 = r)
    (hn : E.list_length (E.list_folder_go_back s.world).2 = n) :
    (s.navigate_timeout ≤ 0 → 0 < s.list_len →
      strncmp_eq 3 (s.list_current s.current_selected_item).disc ['D', 'I', 'R'] = true →
      strcmp_eq (s.list_current s.current_selected_item).name ['[', '.', '.', ']'] = true →
      (menu_accept E s).list_len = n ∧
      (menu_accept E s).current_selected_item = r ∧
      (menu_accept E s).current_starting_index =
        if r < 17 then 0 else max 0 (min (r - 8) (n - 17))) ∧
    (∀ (trg : Triggers) (input : control),
      trg.TRIGGER_L = true → trg.TRIGGER_R = true →
      (s.trig_l_held = false ∨ s.trig_r_held = false) →
      E.list_folder_is_root s.world = false →
      (handle_input_ui E trg input s).list_len = n ∧
      (handle_input_ui E trg input s).current_selected_item = r ∧
      (handle_input_ui E trg input s).current_starting_index =
        if r < 17 then 0 else max 0 (min (r - 8) (n - 17))) := by
  constructor
  · intro hnt hlen hdir hname
    have hg : ¬ (s.navigate_timeout > 0 ∨ s.list_len ≤ 0) := by omega
    simp only [menu_accept, if_neg hg, read_list_current, hdir, hname, emit, if_true, hr, hn,
      ITEMS_PER_PAGE]
    split_ifs <;> simp_all <;> omega
  · intro trg input hl hrr hlatch hroot
    simp only [handle_input_ui, hl, hrr, hlatch, hroot, emit, and_self, if_true, hr, hn,
      ITEMS_PER_PAGE]
    split_ifs <;> simp_all <;> omega

/-- Witness of C6, the example of the specification: inside a folder entered from
cursor 40 of a root list of 60 entries, the go-back returns `r = 40` into a list
of length `n = 60`, and both paths set `current_starting_index = 32`. -/
theorem C6_witness :
    (idle_backend.list_folder_go_back
      (synced_state (Catalog.list_folder_enter 21 40 (sample_catalog (sample_root 60)))
        0 0 0).world).1 = 40 ∧
    idle_backend.list_length (idle_backend.list_folder_go_back
      (synced_state (Catalog.list_folder_enter 21 40 (sample_catalog (sample_root 60)))
        0 0 0).world).2 = 60 ∧
    (menu_accept idle_backend
      (synced_state (Catalog.list_folder_enter 21 40 (sample_catalog (sample_root 60)))
        0 0 0)).current_selected_item = 40 ∧
    (menu_accept idle_backend
      (synced_state (Catalog.list_folder_enter 21 40 (sample_catalog (sample_root 60)))
        0 0 0)).current_starting_index = 32 ∧
    (handle_input_ui idle_backend ⟨true, true⟩ control.NONE
      (synced_state (Catalog.list_folder_enter 21 40 (sample_catalog (sample_root 60)))
        0 0 0)).current_starting_index = 32 := by
  have h := C6_go_back_restores_cursor_and_viewport idle_backend
    (synced_state (Catalog.list_folder_enter 21 40 (sample_catalog (sample_root 60))) 0 0 0)
    40 60 (by decide) (by decide)
  have h1 := h.1 (by decide) (by decide) (by decide) (by decide)
  have h2 := h.2 ⟨true, true⟩ control.NONE rfl rfl (Or.inl (by decide)) (by decide)
  refine ⟨by decide, by decide, h1.2.1, ?_, ?_⟩
  · rw [h1.2.2]; decide
  · rw [h2.2.2]; decide

/-! ## Entering a folder (C8) and the round trip (C7) -/

/-- The state that `menu_accept` produces on a folder entry. -/
theorem menu_accept_folder (E : Backend W) (s : State W)
    (hnt : s.navigate_timeout ≤ 0) (hlen : 0 < s.list_len)
    (hdir : strncmp_eq 3 (s.list_current s.current_selected_item).disc ['D', 'I', 'R'] = true)
    (hname : strcmp_eq (s.list_current s.current_selected_item).name ['[', '.', '.', ']'] = false)
    (hF : char_at (s.list_current s.current_selected_item).product 0 = 'F') :
    menu_accept E s =
      { s with
        list_current := E.list_get (E.list_folder_enter
          (s.list_current s.current_selected_item).slot_num s.current_selected_item s.world)
        list_len := E.list_length (E.list_folder_enter
          (s.list_current s.current_selected_item).slot_num s.current_selected_item s.world)
        current_selected_item := 0
        current_starting_index := 0
        navigate_timeout := 36
        draw_current := draw_state.DRAW_UI
        world := E.list_folder_enter
          (s.list_current s.current_selected_item).slot_num s.current_selected_item s.world
        trace := s.trace ++ [Event.list_folder_enter
          (s.list_current s.current_selected_item).slot_num s.current_selected_item,
          Event.list_get, Event.list_length]
        reads := s.reads ++ [s.current_selected_item] } := by
  have hg : ¬ (s.navigate_timeout > 0 ∨ s.list_len ≤ 0) := by omega
  simp [menu_accept, hg, read_list_current, hdir, hname, hF, emit, call_world,
    INPUT_TIMEOUT_INITIAL]

/-- The world and the selection after `menu_accept` on the `[..]` entry. -/
theorem menu_accept_parent_ref (E : Backend W) (s : State W)
    (hnt : s.navigate_timeout ≤ 0) (hlen : 0 < s.list_len)
    (hdir : strncmp_eq 3 (s.list_current s.current_selected_item).disc ['D', 'I', 'R'] = true)
    (hname : strcmp_eq (s.list_current s.current_selected_item).name ['[', '.', '.', ']'] = true) :
    (menu_accept E s).world = (E.list_folder_go_back s.world).2 ∧
    (menu_accept E s).current_selected_item = (E.list_folder_go_back s.world).1 := by
  have hg : ¬ (s.navigate_timeout > 0 ∨ s.list_len ≤ 0) := by omega
  simp only [menu_accept, if_neg hg, read_list_current, hdir, hname, emit, if_true]
  split_ifs <;> simp

/-- The world and the selection after the L+R combo fires below the root. -/
theorem handle_input_ui_combo (E : Backend W) (s : State W) (trg : Triggers) (input : control)
    (hl : trg.TRIGGER_L = true) (hr : trg.TRIGGER_R = true)
    (hlatch : s.trig_l_held = false ∨ s.trig_r_held = false)
    (hroot : E.list_folder_is_root s.world = false) :
    (handle_input_ui E trg input s).world = (E.list_folder_go_back s.world).2 ∧
    (handle_input_ui E trg input s).current_selected_item = (E.list_folder_go_back s.world).1 := by
  simp only [handle_input_ui, hl, hr, hlatch, hroot, emit, and_self, if_true]
  split_ifs <;> simp

/-- C8: for a state with `navigate_timeout <= 0` and `list_len > 0` whose selected
item is a folder (disc starting "DIR", product starting with 'F', name other than
"[..]"), `menu_accept` calls `list_folder_enter` with the item's slot number and
the selected index, reloads the list, and leaves `current_selected_item = 0`,
`current_starting_index = 0` and `draw_current = DRAW_UI`. -/
theorem C8_enter_folder_resets_cursor (E : Backend W) (s : State W)
    (hnt : s.navigate_timeout ≤ 0) (hlen : 0 < s.list_len)
    (hdir : strncmp_eq 3 (s.list_current s.current_selected_item).disc ['D', 'I', 'R'] = true)
    (hF : char_at (s.list_current s.current_selected_item).product 0 = 'F')
    (hname : strcmp_eq (s.list_current s.current_selected_item).name ['[', '.', '.', ']'] = false) :
    (menu_accept E s).trace =
      s.trace ++ [Event.list_folder_enter (s.list_current s.current_selected_item).slot_num
        s.current_selected_item, Event.list_get, Event.list_length] ∧
    (menu_accept E s).world =
      E.list_folder_enter (s.list_current s.current_selected_item).slot_num
        s.current_selected_item s.world ∧
    (menu_accept E s).list_current = E.list_get (menu_accept E s).world ∧
    (menu_accept E s).list_len = E.list_length (menu_accept E s).world ∧
    (menu_accept E s).current_selected_item = 0 ∧
    (menu_accept E s).current_starting_index = 0 ∧
    (menu_accept E s).draw_current = draw_state.DRAW_UI := by
  rw [menu_accept_folder E s hnt hlen hdir hname hF]
  exact ⟨rfl, rfl, rfl, rfl, rfl, rfl, rfl⟩

/-- Witness of C8: in a root list of 20 entries, with the timeout elapsed and the
selection on index 12 (the folder with slot number 7), accepting calls
`list_folder_enter(7, 12)` and puts the cursor at the top of the folder. -/
theorem C8_witness :
    (synced_state (sample_catalog (sample_root 20)) 12 0 0).navigate_timeout ≤ 0 ∧
    0 < (synced_state (sample_catalog (sample_root 20)) 12 0 0).list_len ∧
    (menu_accept idle_backend (synced_state (sample_catalog (sample_root 20)) 12 0 0)).trace =
      [Event.list_folder_enter 7 12, Event.list_get, Event.list_length] ∧
    (menu_accept idle_backend
      (synced_state (sample_catalog (sample_root 20)) 12 0 0)).current_selected_item = 0 :=
  ⟨by decide, by decide,
    (C8_enter_folder_resets_cursor idle_backend
      (synced_state (sample_catalog (sample_root 20)) 12 0 0)
      (by decide) (by decide) (by decide) (by decide) (by decide)).1,
    (C8_enter_folder_resets_cursor idle_backend
      (synced_state (sample_catalog (sample_root 20)) 12 0 0)
      (by decide) (by decide) (by decide) (by decide) (by decide)).2.2.2.2.1⟩

/-- In the stack model, a go-back right after an enter returns the saved cursor
and the catalog from before the enter. -/
theorem catalog_go_back_enter (id : Nat) (c : Int) (w : Catalog) :
    Catalog.list_folder_go_back (Catalog.list_folder_enter id c w) = (c, w) := rfl

/-- In the stack model, the list of a folder is not empty and starts with the
`[..]` entry. -/
theorem catalog_enter_list (id : Nat) (c : Int) (w : Catalog) :
    0 < Catalog.list_length (Catalog.list_folder_enter id c w) ∧
    Catalog.list_get (Catalog.list_folder_enter id c w) 0 = parent_ref := by
  constructor
  · simp [Catalog.list_length, Catalog.list_folder_enter, Catalog.active]
  · simp [Catalog.list_get, Catalog.list_folder_enter, Catalog.active]

/-- C7: with the folder stack of the list provider modelled as a LIFO stack
(`list_folder_enter(id, c)` pushes `(id, c)`, `list_folder_go_back` pops and
returns the saved cursor), take a state with `navigate_timeout <= 0` and a
non-empty list whose selected item at index `c` is a folder (disc starting
"DIR", product starting with 'F', name other than "[..]"), in Root mode or any
other.  `menu_accept` pushes one frame; a
go-back after it, by accepting the `[..]` entry once the timeout has elapsed or
by the L+R combo, leaves `current_selected_item = c` and the stack depth equal
to its value before the accept. -/
theorem C7_enter_then_go_back_round_trip (B : Backend Catalog) (s : State Catalog)
    (hnt : s.navigate_timeout ≤ 0) (hlen : 0 < s.list_len)
    (hdir : strncmp_eq 3 (s.list_current s.current_selected_item).disc ['D', 'I', 'R'] = true)
    (hF : char_at (s.list_current s.current_selected_item).product 0 = 'F')
    (hname : strcmp_eq (s.list_current s.current_selected_item).name ['[', '.', '.', ']'] = false) :
    (menu_accept (catalog_backend B) s).world.stack.length = s.world.stack.length + 1 ∧
    (∀ t : Int, t ≤ 0 →
      (menu_accept (catalog_backend B)
        { menu_accept (catalog_backend B) s with navigate_timeout := t }).current_selected_item
          = s.current_selected_item ∧
      (menu_accept (catalog_backend B)
        { menu_accept (catalog_backend B) s with navigate_timeout := t }).world.stack.length
          = s.world.stack.length) ∧
    (∀ (trg : Triggers) (input : control) (t : Int) (l r : Bool),
      trg.TRIGGER_L = true → trg.TRIGGER_R = true → (l = false ∨ r = false) →
      (handle_input_ui (catalog_backend B) trg input
        { menu_accept (catalog_backend B) s with
          navigate_timeout := t, trig_l_held := l, trig_r_held := r }).current_selected_item
          = s.current_selected_item ∧
      (handle_input_ui (catalog_backend B) trg input
        { menu_accept (catalog_backend B) s with
          navigate_timeout := t, trig_l_held := l, trig_r_held := r }).world.stack.length
          = s.world.stack.length) := by
  rw [menu_accept_folder (catalog_backend B) s hnt hlen hdir hname hF]
  refine ⟨?_, ?_, ?_⟩
  · simp [catalog_backend, Catalog.list_folder_enter]
  · intro t ht
    have h := menu_accept_parent_ref (catalog_backend B)
      { s with
        list_current := Catalog.list_get (Catalog.list_folder_enter
          (s.list_current s.current_selected_item).slot_num s.current_selected_item s.world)
        list_len := Catalog.list_length (Catalog.list_folder_enter
          (s.list_current s.current_selected_item).slot_num s.current_selected_item s.world)
        current_selected_item := 0
        current_starting_index := 0
        navigate_timeout := t
        draw_current := draw_state.DRAW_UI
        world := Catalog.list_folder_enter
          (s.list_current s.current_selected_item).slot_num s.current_selected_item s.world
        trace := s.trace ++ [Event.list_folder_enter
          (s.list_current s.current_selected_item).slot_num s.current_selected_item,
          Event.list_get, Event.list_length]
        reads := s.reads ++ [s.current_selected_item] }
      ht (catalog_enter_list _ _ _).1
      (by dsimp only; rw [(catalog_enter_list _ _ _).2]; decide)
      (by dsimp only; rw [(catalog_enter_list _ _ _).2]; decide)
    constructor
    · exact h.2
    · exact congrArg (fun w => w.stack.length) h.1
  · intro trg input t l r hl hr hlatch
    have h := handle_input_ui_combo (catalog_backend B)
      { s with
        list_current := Catalog.list_get (Catalog.list_folder_enter
          (s.list_current s.current_selected_item).slot_num s.current_selected_item s.world)
        list_len := Catalog.list_length (Catalog.list_folder_enter
          (s.list_current s.current_selected_item).slot_num s.current_selected_item s.world)
        current_selected_item := 0
        current_starting_index := 0
        navigate_timeout := t
        draw_current := draw_state.DRAW_UI
        trig_l_held := l
        trig_r_held := r
        world := Catalog.list_folder_enter
          (s.list_current s.current_selected_item).slot_num s.current_selected_item s.world
        trace := s.trace ++ [Event.list_folder_enter
          (s.list_current s.current_selected_item).slot_num s.current_selected_item,
          Event.list_get, Event.list_length]
        reads := s.reads ++ [s.current_selected_item] }
      trg input hl hr hlatch rfl
    constructor
    · exact h.2
    · exact congrArg (fun w => w.stack.length) h.1

/-- Witness of C7, the example of the specification: in a root list of 20 entries
with the selection on index 12, the folder with slot number 7, accepting enters
folder 7 at cursor 12; the go-back, by the `[..]` entry or by the combo, then
returns to selection 12 at depth 0. -/
theorem C7_witness :
    (synced_state (sample_catalog (sample_root 20)) 12 0 0).navigate_timeout ≤ 0 ∧
    0 < (synced_state (sample_catalog (sample_root 20)) 12 0 0).list_len ∧
    (synced_state (sample_catalog (sample_root 20)) 12 0 0).current_selected_item = 12 ∧
    (synced_state (sample_catalog (sample_root 20)) 12 0 0).world.stack.length = 0 ∧
    (menu_accept (catalog_backend idle_backend)
      (synced_state (sample_catalog (sample_root 20)) 12 0 0)).trace =
        [Event.list_folder_enter 7 12, Event.list_get, Event.list_length] ∧
    (menu_accept (catalog_backend idle_backend)
      { menu_accept (catalog_backend idle_backend)
          (synced_state (sample_catalog (sample_root 20)) 12 0 0) with
        navigate_timeout := 0 }).current_selected_item = 12 ∧
    (menu_accept (catalog_backend idle_backend)
      { menu_accept (catalog_backend idle_backend)
          (synced_state (sample_catalog (sample_root 20)) 12 0 0) with
        navigate_timeout := 0 }).world.stack.length = 0 ∧
    (handle_input_ui (catalog_backend idle_backend) ⟨true, true⟩ control.NONE
      { menu_accept (catalog_backend idle_backend)
          (synced_state (sample_catalog (sample_root 20)) 12 0 0) with
        navigate_timeout := 35, trig_l_held := false, trig_r_held := false }).current_selected_item
          = 12 :=
  ⟨by decide, by decide, by decide, by decide, by decide,
    ((C7_enter_then_go_back_round_trip idle_backend
      (synced_state (sample_catalog (sample_root 20)) 12 0 0)
      (by decide) (by decide) (by decide) (by decide) (by decide)).2.1 0
        (le_refl 0)).1,
    ((C7_enter_then_go_back_round_trip idle_backend
      (synced_state (sample_catalog (sample_root 20)) 12 0 0)
      (by decide) (by decide) (by decide) (by decide) (by decide)).2.1 0
        (le_refl 0)).2,
    ((C7_enter_then_go_back_round_trip idle_backend
      (synced_state (sample_catalog (sample_root 20)) 12 0 0)
      (by decide) (by decide) (by decide) (by decide) (by decide)).2.2
        ⟨true, true⟩ control.NONE 35 false false rfl rfl (Or.inl rfl)).1⟩

/-! ## The combo is edge-triggered (C9) -/

/-- A frame in Root mode on which both triggers are pressed while both latches are
already set does nothing but the per-frame bookkeeping: no collaborator is
called, and the mode and the latches stay. -/
theorem combo_frame_while_latched (E : Backend W) (b : control) (s : State W)
    (hmode : s.draw_current = draw_state.DRAW_UI)
    (hl : s.trig_l_held = true) (hr : s.trig_r_held = true) :
    (FOLDERS_handle_input E ⟨true, true⟩ b s).trace = s.trace ∧
    (FOLDERS_handle_input E ⟨true, true⟩ b s).draw_current = draw_state.DRAW_UI ∧
    (FOLDERS_handle_input E ⟨true, true⟩ b s).trig_l_held = true ∧
    (FOLDERS_handle_input E ⟨true, true⟩ b s).trig_r_held = true := by
  simp [FOLDERS_handle_input, handle_input_ui, hmode, hl, hr]

/-- A frame in Root mode on which both triggers are pressed while both latches are
clear, below the root: `list_folder_go_back` is called once, the latches are set
and the mode stays. -/
theorem combo_frame_first (E : Backend W) (b : control) (s : State W)
    (hmode : s.draw_current = draw_state.DRAW_UI)
    (hl : s.trig_l_held = false) (hr : s.trig_r_held = false)
    (hroot : E.list_folder_is_root s.world = false) :
    go_back_calls (FOLDERS_handle_input E ⟨true, true⟩ b s).trace = go_back_calls s.trace + 1 ∧
    (FOLDERS_handle_input E ⟨true, true⟩ b s).draw_current = draw_state.DRAW_UI ∧
    (FOLDERS_handle_input E ⟨true, true⟩ b s).trig_l_held = true ∧
    (FOLDERS_handle_input E ⟨true, true⟩ b s).trig_r_held = true := by
  simp only [FOLDERS_handle_input, handle_input_ui, hmode, hl, hr, hroot, emit, go_back_calls,
    and_self, or_self, if_true]
  split_ifs <;> simp [List.count_append]

/-- Frames with both triggers pressed, run from a Root-mode state with both latches
set, call no collaborator. -/
theorem combo_frames_while_latched (E : Backend W) (bs : List control) (s : State W)
    (hmode : s.draw_current = draw_state.DRAW_UI)
    (hl : s.trig_l_held = true) (hr : s.trig_r_held = true) :
    (run_frames E (bs.map (fun b => ((⟨true, true⟩ : Triggers), b))) s).trace = s.trace := by
  induction bs generalizing s with
  | nil => rfl
  | cons b bs ih =>
    have h := combo_frame_while_latched E b s hmode hl hr
    simp only [List.map_cons, run_frames, List.foldl_cons]
    have h2 := ih (FOLDERS_handle_input E ⟨true, true⟩ b s) h.2.1 h.2.2.1 h.2.2.2
    simp only [run_frames] at h2
    rw [h2, h.1]

/-- C9: let both triggers be pressed on `n >= 1` consecutive frames (the frames
`b :: bs`, with any buttons), starting in Root mode with both latches false and
the folder hierarchy not at root.  Then `list_folder_go_back` has been called
exactly once after frame 1 and still exactly once after frame `n`: the
back-navigation fires on frame 1 and on none of the frames `2..n`. -/
theorem C9_combo_fires_once (E : Backend W) (s : State W) (b : control) (bs : List control)
    (hmode : s.draw_current = draw_state.DRAW_UI)
    (hl : s.trig_l_held = false) (hr : s.trig_r_held = false)
    (hroot : E.list_folder_is_root s.world = false) :
    go_back_calls (FOLDERS_handle_input E ⟨true, true⟩ b s).trace = go_back_calls s.trace + 1 ∧
    go_back_calls
      (run_frames E ((b :: bs).map (fun x => ((⟨true, true⟩ : Triggers), x))) s).trace =
        go_back_calls s.trace + 1 := by
  have h := combo_frame_first E b s hmode hl hr hroot
  refine ⟨h.1, ?_⟩
  have h2 := combo_frames_while_latched E bs (FOLDERS_handle_input E ⟨true, true⟩ b s)
    h.2.1 h.2.2.1 h.2.2.2
  simp only [List.map_cons, run_frames, List.foldl_cons]
  simp only [run_frames] at h2
  rw [h2, h.1]

/-- Witness of C9, the example of the specification: inside a folder entered from
the root, holding both triggers for 10 frames (with assorted buttons) calls
`list_folder_go_back` once. -/
theorem C9_witness :
    (synced_state (Catalog.list_folder_enter 7 12 (sample_catalog (sample_root 20)))
      0 0 0).draw_current = draw_state.DRAW_UI ∧
    idle_backend.list_folder_is_root
      (synced_state (Catalog.list_folder_enter 7 12 (sample_catalog (sample_root 20)))
        0 0 0).world = false ∧
    go_back_calls
      (run_frames idle_backend
        ((control.NONE :: [control.A, control.UP, control.TRIG_L, control.TRIG_R, control.B,
          control.X, control.Y, control.DOWN, control.NONE]).map
            (fun x => ((⟨true, true⟩ : Triggers), x)))
        (synced_state (Catalog.list_folder_enter 7 12 (sample_catalog (sample_root 20)))
          0 0 0)).trace =
      go_back_calls
        (synced_state (Catalog.list_folder_enter 7 12 (sample_catalog (sample_root 20)))
          0 0 0).trace + 1 :=
  ⟨by decide, by decide,
    (C9_combo_fires_once idle_backend
      (synced_state (Catalog.list_folder_enter 7 12 (sample_catalog (sample_root 20))) 0 0 0)
      control.NONE [control.A, control.UP, control.TRIG_L, control.TRIG_R, control.B,
        control.X, control.Y, control.DOWN, control.NONE]
      (by decide) (by decide) (by decide) (by decide)).2⟩

/-! ## The debounce gate (C10) -/

/-- With the gate open, `menu_decrement` does not read the timeout. -/
theorem menu_decrement_open_gate (a : Int) (s : State W)
    (hg : ¬ (direction_held s = true ∧ s.navigate_timeout > 0)) :
    menu_decrement a s = menu_decrement a { s with navigate_timeout := 0 } := by
  cases s
  simp only [direction_held] at hg
  simp only [menu_decrement, direction_held, if_neg hg, gt_iff_lt, lt_self_iff_false,
    and_false, if_false]
  split_ifs <;> rfl

/-- With the gate open, `menu_increment` does not read the timeout. -/
theorem menu_increment_open_gate (a : Int) (s : State W)
    (hg : ¬ (direction_held s = true ∧ s.navigate_timeout > 0)) :
    menu_increment a s = menu_increment a { s with navigate_timeout := 0 } := by
  cases s
  simp only [direction_held] at hg
  simp only [menu_increment, direction_held, if_neg hg, gt_iff_lt, lt_self_iff_false,
    and_false, if_false]
  split_ifs <;> rfl

/-- An honored `menu_decrement` re-arms the timeout. -/
theorem menu_decrement_timeout (a : Int) (s : State W)
    (hg : ¬ (direction_held s = true ∧ s.navigate_timeout > 0)) :
    (menu_decrement a s).navigate_timeout =
      if direction_held s = true then INPUT_TIMEOUT_REPEAT else INPUT_TIMEOUT_INITIAL := by
  cases s
  simp only [direction_held] at hg
  simp only [menu_decrement, if_neg hg, direction_held]
  split_ifs <;> rfl

/-- An honored `menu_increment` re-arms the timeout. -/
theorem menu_increment_timeout (a : Int) (s : State W)
    (hg : ¬ (direction_held s = true ∧ s.navigate_timeout > 0)) :
    (menu_increment a s).navigate_timeout =
      if direction_held s = true then INPUT_TIMEOUT_REPEAT else INPUT_TIMEOUT_INITIAL := by
  cases s
  simp only [direction_held] at hg
  simp only [menu_increment, if_neg hg, direction_held]
  split_ifs <;> rfl

/-- `menu_decrement` writes only the selection, the viewport start and the
timeout. -/
theorem menu_decrement_frame (a : Int) (s : State W) :
    menu_decrement a s =
      { s with current_selected_item := (menu_decrement a s).current_selected_item
               current_starting_index := (menu_decrement a s).current_starting_index
               navigate_timeout := (menu_decrement a s).navigate_timeout } := by
  simp only [menu_decrement]
  split_ifs <;> rfl

/-- `menu_increment` writes only the selection, the viewport start and the
timeout. -/
theorem menu_increment_frame (a : Int) (s : State W) :
    menu_increment a s =
      { s with current_selected_item := (menu_increment a s).current_selected_item
               current_starting_index := (menu_increment a s).current_starting_index
               navigate_timeout := (menu_increment a s).navigate_timeout } := by
  simp only [menu_increment]
  split_ifs <;> rfl

/-- The selection after an honored `menu_decrement`. -/
theorem menu_decrement_selected (a : Int) (s : State W)
    (hg : ¬ (direction_held s = true ∧ s.navigate_timeout > 0)) :
    (menu_decrement a s).current_selected_item =
      if s.current_selected_item < a then (if a = 1 then s.list_len - 1 else 0)
      else s.current_selected_item - a := by
  simp only [menu_decrement, ITEMS_PER_PAGE, if_neg hg]
  split_ifs <;> simp_all

/-- The viewport start after an honored `menu_decrement`. -/
theorem menu_decrement_starting (a : Int) (s : State W)
    (hg : ¬ (direction_held s = true ∧ s.navigate_timeout > 0)) :
    (menu_decrement a s).current_starting_index =
      if s.current_selected_item < a then (if a = 1 then max 0 (s.list_len - 17) else 0)
      else if s.current_selected_item - a < s.current_starting_index
        then max 0 (s.current_starting_index - a)
      else s.current_starting_index := by
  simp only [menu_decrement, ITEMS_PER_PAGE, if_neg hg]
  split_ifs <;> simp_all <;> omega

/-- The selection after an honored `menu_increment`. -/
theorem menu_increment_selected (a : Int) (s : State W)
    (hg : ¬ (direction_held s = true ∧ s.navigate_timeout > 0)) :
    (menu_increment a s).current_selected_item =
      if s.current_selected_item + a ≥ s.list_len then (if a = 1 then 0 else s.list_len - 1)
      else s.current_selected_item + a := by
  simp only [menu_increment, ITEMS_PER_PAGE, if_neg hg]
  split_ifs <;> simp_all

/-- The viewport start after an honored `menu_increment`. -/
theorem menu_increment_starting (a : Int) (s : State W)
    (hg : ¬ (direction_held s = true ∧ s.navigate_timeout > 0)) :
    (menu_increment a s).current_starting_index =
      if s.current_selected_item + a ≥ s.list_len
        then (if a = 1 then 0 else max 0 (s.list_len - 17))
      else if s.current_selected_item + a ≥ s.current_starting_index + 17
        then s.current_starting_index + a
      else s.current_starting_index := by
  simp only [menu_increment, ITEMS_PER_PAGE, if_neg hg]
  split_ifs <;> simp_all <;> omega

/-- C10: a call of `menu_decrement` or `menu_increment` performs the move exactly
when `navigate_timeout <= 0` or the direction is not held.  With the gate open
the move is made: `menu_decrement` takes the selection back by the amount, or,
below index 0, to the last entry (amount 1) or to 0 (any other amount), and
`menu_increment` takes it forward by the amount, or, past the last entry, to 0
(amount 1) or to the last entry; the viewport start follows the selection; the
timeout is re-armed to 18 or, held, to 5; no other variable changes; and the
result is that of the same call with the timeout elapsed.  With the gate closed
the timeout is positive and the call returns the state as it was, so
`current_selected_item`, `current_starting_index` and `navigate_timeout` are
unchanged. -/
theorem C10_debounce_gate (amount : Int) (s : State W) :
    ((s.navigate_timeout ≤ 0 ∨ direction_held s = false) →
      menu_decrement amount s =
        { s with
          current_selected_item :=
            if s.current_selected_item < amount then (if amount = 1 then s.list_len - 1 else 0)
            else s.current_selected_item - amount
          current_starting_index :=
            if s.current_selected_item < amount
              then (if amount = 1 then max 0 (s.list_len - 17) else 0)
            else if s.current_selected_item - amount < s.current_starting_index
              then max 0 (s.current_starting_index - amount)
            else s.current_starting_index
          navigate_timeout := if direction_held s = true then 5 else 18 } ∧
      menu_increment amount s =
        { s with
          current_selected_item :=
            if s.current_selected_item + amount ≥ s.list_len
              then (if amount = 1 then 0 else s.list_len - 1)
            else s.current_selected_item + amount
          current_starting_index :=
            if s.current_selected_item + amount ≥ s.list_len
              then (if amount = 1 then 0 else max 0 (s.list_len - 17))
            else if s.current_selected_item + amount ≥ s.current_starting_index + 17
              then s.current_starting_index + amount
            else s.current_starting_index
          navigate_timeout := if direction_held s = true then 5 else 18 } ∧
      menu_decrement amount s = menu_decrement amount { s with navigate_timeout := 0 } ∧
      menu_increment amount s = menu_increment amount { s with navigate_timeout := 0 } ∧
      (menu_decrement amount s).navigate_timeout =
        (if direction_held s = true then INPUT_TIMEOUT_REPEAT else INPUT_TIMEOUT_INITIAL) ∧
      (menu_increment amount s).navigate_timeout =
        (if direction_held s = true then INPUT_TIMEOUT_REPEAT else INPUT_TIMEOUT_INITIAL)) ∧
    (¬ (s.navigate_timeout ≤ 0 ∨ direction_held s = false) →
      0 < s.navigate_timeout ∧
      menu_decrement amount s = s ∧ menu_increment amount s = s ∧
      (menu_decrement amount s).current_selected_item = s.current_selected_item ∧
      (menu_decrement amount s).current_starting_index = s.current_starting_index ∧
      (menu_decrement amount s).navigate_timeout = s.navigate_timeout ∧
      (menu_increment amount s).current_selected_item = s.current_selected_item ∧
      (menu_increment amount s).current_starting_index = s.current_starting_index ∧
      (menu_increment amount s).navigate_timeout = s.navigate_timeout) := by
  constructor
  · intro hgate
    have hg : ¬ (direction_held s = true ∧ s.navigate_timeout > 0) := by
      rintro ⟨h1, h2⟩
      rcases hgate with h | h
      · omega
      · rw [h1] at h; cases h
    refine ⟨?_, ?_, menu_decrement_open_gate amount s hg, menu_increment_open_gate amount s hg,
      menu_decrement_timeout amount s hg, menu_increment_timeout amount s hg⟩
    · rw [menu_decrement_frame amount s, menu_decrement_selected amount s hg,
        menu_decrement_starting amount s hg, menu_decrement_timeout amount s hg]
      rfl
    · rw [menu_increment_frame amount s, menu_increment_selected amount s hg,
        menu_increment_starting amount s hg, menu_increment_timeout amount s hg]
      rfl
  · intro hgate
    have hg : direction_held s = true ∧ s.navigate_timeout > 0 := by
      constructor
      · cases h : direction_held s
        · exact absurd (Or.inr h) hgate
        · rfl
      · by_contra h
        exact hgate (Or.inl (by omega))
    have hd : menu_decrement amount s = s := by simp only [menu_decrement, if_pos hg]
    have hi : menu_increment amount s = s := by simp only [menu_increment, if_pos hg]
    refine ⟨hg.2, hd, hi, ?_⟩
    rw [hd, hi]
    exact ⟨rfl, rfl, rfl, rfl, rfl, rfl⟩

/-! ## Honored moves re-arm the timeout (C11) -/

/-- The debounce gate of the move functions is open when the timeout has elapsed
or the direction is not held. -/
theorem gate_open_of (s : State W)
    (hgate : s.navigate_timeout ≤ 0 ∨ direction_held s = false) :
    ¬ (direction_held s = true ∧ s.navigate_timeout > 0) := by
  rintro ⟨h1, h2⟩
  rcases hgate with h | h
  · omega
  · rw [h1] at h; cases h

/-- C11: on every honored call of `menu_decrement` or `menu_increment` (the
timeout has elapsed or the direction is not held), with any amount and any
list length, so also in the wrap and clamp branches, `navigate_timeout` is
reset to `INPUT_TIMEOUT_INITIAL` = 18 if the direction is not held and to
`INPUT_TIMEOUT_REPEAT` = 5 if it is held. -/
theorem C11_honored_move_rearms_timeout (amount : Int) (s : State W)
    (hgate : s.navigate_timeout ≤ 0 ∨ direction_held s = false) :
    INPUT_TIMEOUT_INITIAL = 18 ∧ INPUT_TIMEOUT_REPEAT = 5 ∧
    (direction_held s = false →
      (menu_decrement amount s).navigate_timeout = INPUT_TIMEOUT_INITIAL ∧
      (menu_increment amount s).navigate_timeout = INPUT_TIMEOUT_INITIAL) ∧
    (direction_held s = true →
      (menu_decrement amount s).navigate_timeout = INPUT_TIMEOUT_REPEAT ∧
      (menu_increment amount s).navigate_timeout = INPUT_TIMEOUT_REPEAT) := by
  have hg := gate_open_of s hgate
  have hd := menu_decrement_timeout amount s hg
  have hi := menu_increment_timeout amount s hg
  refine ⟨rfl, rfl, ?_, ?_⟩
  · intro h
    rw [hd, hi, h]
    exact ⟨rfl, rfl⟩
  · intro h
    rw [hd, hi, h]
    exact ⟨rfl, rfl⟩

/-- Witness of C11: in the activation state on 21 games a fresh page down re-arms
the timeout to 18, and with the direction held and the timeout elapsed a step
up, which wraps, re-arms it to 5. -/
theorem C11_witness :
    (menu_increment 5 (activation_state 21)).navigate_timeout = 18 ∧
    (menu_decrement 1
      { activation_state 21 with
        direction_last := true, direction_current := true,
        navigate_timeout := 0 }).navigate_timeout = 5 :=
  ⟨((C11_honored_move_rearms_timeout 5 (activation_state 21) (Or.inr (by decide))).2.2.1
      (by decide)).2,
    ((C11_honored_move_rearms_timeout 1
      { activation_state 21 with
        direction_last := true, direction_current := true, navigate_timeout := 0 }
      (Or.inl (by decide))).2.2.2 (by decide)).1⟩

/-! ## One decrement of the timeout per frame (C12) -/

/-- In Root mode a frame is `handle_input_ui` followed by the decrement of the
timeout. -/
theorem root_frame (E : Backend W) (trg : Triggers) (b : control) (s : State W)
    (hmode : s.draw_current = draw_state.DRAW_UI) :
    FOLDERS_handle_input E trg b s =
      { handle_input_ui E trg b s with
        navigate_timeout := (handle_input_ui E trg b s).navigate_timeout - 1 } := by
  simp only [FOLDERS_handle_input, hmode]

/-- Without the combo, `handle_input_ui` with a directional button calls the move
of the button in the state `at_move_call`. -/
theorem handle_input_ui_directional (E : Backend W) (trg : Triggers) (b : control) (m : Move)
    (s : State W) (hm : b.move_of = some m)
    (hno : ¬ (trg.TRIGGER_L = true ∧ trg.TRIGGER_R = true)) :
    handle_input_ui E trg b s = m.apply (at_move_call s) := by
  cases b <;> simp only [control.move_of] at hm <;> cases hm <;>
    simp only [handle_input_ui, if_neg hno, at_move_call, Move.apply]

/-- A gated move returns the state as it was. -/
theorem move_apply_gated (m : Move) (s : State W)
    (hg : direction_held s = true ∧ s.navigate_timeout > 0) : m.apply s = s := by
  cases m <;> simp only [Move.apply, menu_decrement, menu_increment, if_pos hg]

/-- C12: in Root mode (`draw_current = DRAW_UI`) the value of `navigate_timeout`
at the exit of `FOLDERS_handle_input` is the value left by `handle_input_ui`
minus 1.  In particular, on a frame without the combo where nothing is honored
the timeout goes down by exactly 1: with the button NONE, with a directional
button while the direction is held and the timeout positive, and with A, B, X or
Y while the timeout is positive. -/
theorem C12_timeout_decrements_once_per_frame (E : Backend W) (trg : Triggers) (b : control)
    (s : State W) (hmode : s.draw_current = draw_state.DRAW_UI) :
    (FOLDERS_handle_input E trg b s).navigate_timeout =
      (handle_input_ui E trg b s).navigate_timeout - 1 ∧
    (¬ (trg.TRIGGER_L = true ∧ trg.TRIGGER_R = true) → b = control.NONE →
      (FOLDERS_handle_input E trg b s).navigate_timeout = s.navigate_timeout - 1) ∧
    (¬ (trg.TRIGGER_L = true ∧ trg.TRIGGER_R = true) → b.move_of ≠ none →
      s.direction_current = true → 0 < s.navigate_timeout →
      (FOLDERS_handle_input E trg b s).navigate_timeout = s.navigate_timeout - 1) ∧
    (¬ (trg.TRIGGER_L = true ∧ trg.TRIGGER_R = true) →
      (b = control.A ∨ b = control.B ∨ b = control.X ∨ b = control.Y) →
      0 < s.navigate_timeout →
      (FOLDERS_handle_input E trg b s).navigate_timeout = s.navigate_timeout - 1) := by
  have h := root_frame E trg b s hmode
  refine ⟨by rw [h], ?_, ?_, ?_⟩
  · intro hno hb
    subst hb
    rw [h]
    simp only [handle_input_ui, if_neg hno]
  · intro hno hb hdir hnt
    cases hm : b.move_of with
    | none => exact absurd hm hb
    | some m =>
      rw [h, handle_input_ui_directional E trg b m s hm hno]
      have hg : direction_held (at_move_call s) = true ∧ (at_move_call s).navigate_timeout > 0 := by
        simp only [direction_held, at_move_call, hdir, Bool.and_self, true_and]
        exact hnt
      rw [move_apply_gated m (at_move_call s) hg]
      rfl
  · intro hno hb hnt
    have hg : s.navigate_timeout > 0 ∨ s.list_len ≤ 0 := Or.inl hnt
    rw [h]
    rcases hb with hb | hb | hb | hb <;> subst hb <;>
      simp [handle_input_ui, hno, menu_accept, menu_cb, menu_settings, menu_exit, hnt]

/-- Witness of C12: the first idle frame after activation on 21 games takes the
timeout from 18 to 17. -/
theorem C12_witness :
    (activation_state 21).draw_current = draw_state.DRAW_UI ∧
    (activation_state 21).navigate_timeout = 18 ∧
    (FOLDERS_handle_input idle_backend ⟨false, false⟩ control.NONE
      (activation_state 21)).navigate_timeout = (activation_state 21).navigate_timeout - 1 :=
  ⟨by decide, by decide,
    (C12_timeout_decrements_once_per_frame idle_backend ⟨false, false⟩ control.NONE
      (activation_state 21) (by decide)).2.1 (by decide) rfl⟩

/-! ## Accept on a title: the multi-disc chooser and the launch (C13) -/

/-- The state after `menu_accept` on a title that goes to the multi-disc chooser. -/
theorem menu_accept_multidisc (E : Backend W) (s : State W)
    (hnt : s.navigate_timeout ≤ 0) (hlen : 0 < s.list_len)
    (hdir : strncmp_eq 3 (s.list_current s.current_selected_item).disc ['D', 'I', 'R'] = false)
    (hflag : E.sf_multidisc s.world ≠ 0)
    (hcount : 1 < disc_set_of (s.list_current s.current_selected_item)) :
    menu_accept E s =
      call_world (E.list_set_multidisc (s.list_current s.current_selected_item).product)
        (Event.list_set_multidisc (s.list_current s.current_selected_item).product)
        (call_shared E.popup_setup Event.popup_setup
          { s with cb_multidisc := 0
                   draw_current := draw_state.DRAW_MULTIDISC
                   reads := s.reads ++ [s.current_selected_item] }) := by
  have hg : ¬ (s.navigate_timeout > 0 ∨ s.list_len ≤ 0) := by omega
  have hc : E.sf_multidisc s.world ≠ 0 ∧ disc_set_of (s.list_current s.current_selected_item) > 1 :=
    ⟨hflag, hcount⟩
  simp only [menu_accept, if_neg hg, read_list_current, hdir, if_pos hc]
  rfl

/-- The state after `menu_accept` on a title that is launched directly. -/
theorem menu_accept_launch (E : Backend W) (s : State W)
    (hnt : s.navigate_timeout ≤ 0) (hlen : 0 < s.list_len)
    (hdir : strncmp_eq 3 (s.list_current s.current_selected_item).disc ['D', 'I', 'R'] = false)
    (hc : ¬ (E.sf_multidisc s.world ≠ 0 ∧
      disc_set_of (s.list_current s.current_selected_item) > 1)) :
    menu_accept E s =
      if strncmp_eq 3 (s.list_current s.current_selected_item).disc ['P', 'S', '1'] = true then
        call_world (E.bloom_launch (s.list_current s.current_selected_item))
          (Event.bloom_launch (s.list_current s.current_selected_item))
          { s with reads := s.reads ++ [s.current_selected_item] }
      else
        call_world (E.dreamcast_launch_disc (s.list_current s.current_selected_item))
          (Event.dreamcast_launch_disc (s.list_current s.current_selected_item))
          { s with reads := s.reads ++ [s.current_selected_item] } := by
  have hg : ¬ (s.navigate_timeout > 0 ∨ s.list_len ≤ 0) := by omega
  simp only [menu_accept, if_neg hg, read_list_current, hdir, if_neg hc]
  rfl

/-- C13: take a Root-mode state with `navigate_timeout <= 0` and `list_len > 0`
whose selected item is not a directory and has a disc-count
(`disc[2] - '0'`) greater than one, and let `popup_setup` leave the mode as it
is.  With the flag `sf_multidisc` set, `menu_accept` changes `draw_current` to
`DRAW_MULTIDISC` and calls `popup_setup` and then `list_set_multidisc(product)`.
With the flag clear it makes one call, `bloom_launch` for a "PS1" disc and
`dreamcast_launch_disc` otherwise, and `draw_current` stays `DRAW_UI`. -/
theorem C13_accept_multidisc_or_launch (E : Backend W) (s : State W)
    (hmode : s.draw_current = draw_state.DRAW_UI)
    (hnt : s.navigate_timeout ≤ 0) (hlen : 0 < s.list_len)
    (hdir : strncmp_eq 3 (s.list_current s.current_selected_item).disc ['D', 'I', 'R'] = false)
    (hcount : 1 < disc_set_of (s.list_current s.current_selected_item))
    (hpopup : ∀ (sh : Shared) (w : W), (E.popup_setup sh w).1.draw_current = sh.draw_current) :
    (E.sf_multidisc s.world ≠ 0 →
      (menu_accept E s).draw_current = draw_state.DRAW_MULTIDISC ∧
      (menu_accept E s).trace =
        s.trace ++ [Event.popup_setup,
          Event.list_set_multidisc (s.list_current s.current_selected_item).product]) ∧
    (E.sf_multidisc s.world = 0 →
      (menu_accept E s).draw_current = draw_state.DRAW_UI ∧
      (strncmp_eq 3 (s.list_current s.current_selected_item).disc ['P', 'S', '1'] = true →
        (menu_accept E s).trace =
          s.trace ++ [Event.bloom_launch (s.list_current s.current_selected_item)]) ∧
      (strncmp_eq 3 (s.list_current s.current_selected_item).disc ['P', 'S', '1'] = false →
        (menu_accept E s).trace =
          s.trace ++ [Event.dreamcast_launch_disc (s.list_current s.current_selected_item)])) := by
  constructor
  · intro hflag
    rw [menu_accept_multidisc E s hnt hlen hdir hflag hcount]
    constructor
    · simp only [call_world, call_shared]
      rw [hpopup]
    · simp only [call_world, call_shared, List.append_assoc, List.singleton_append]
  · intro hflag
    have hc : ¬ (E.sf_multidisc s.world ≠ 0 ∧
        disc_set_of (s.list_current s.current_selected_item) > 1) := fun h => h.1 hflag
    rw [menu_accept_launch E s hnt hlen hdir hc]
    refine ⟨?_, ?_, ?_⟩
    · split_ifs <;> exact hmode
    · intro hps
      rw [if_pos hps]
      rfl
    · intro hps
      rw [if_neg (by rw [hps]; decide)]
      rfl

/-- Witness of C13, the example of the specification: accept on disc 1 of 3 goes
to the multi-disc chooser when the setting is on and launches the disc when it
is off. -/
theorem C13_witness :
    (synced_state (sample_catalog [multidisc_item]) 0 0 0).draw_current = draw_state.DRAW_UI ∧
    disc_set_of ((synced_state (sample_catalog [multidisc_item]) 0 0 0).list_current 0) = 3 ∧
    (menu_accept (idle_backend_with_multidisc 1)
      (synced_state (sample_catalog [multidisc_item]) 0 0 0)).draw_current =
        draw_state.DRAW_MULTIDISC ∧
    (menu_accept (idle_backend_with_multidisc 0)
      (synced_state (sample_catalog [multidisc_item]) 0 0 0)).draw_current =
        draw_state.DRAW_UI ∧
    (menu_accept (idle_backend_with_multidisc 0)
      (synced_state (sample_catalog [multidisc_item]) 0 0 0)).trace =
        [Event.dreamcast_launch_disc multidisc_item] :=
  ⟨by decide, by decide,
    ((C13_accept_multidisc_or_launch (idle_backend_with_multidisc 1)
      (synced_state (sample_catalog [multidisc_item]) 0 0 0)
      (by decide) (by decide) (by decide) (by decide) (by decide) (fun _ _ => rfl)).1
        (by decide)).1,
    ((C13_accept_multidisc_or_launch (idle_backend_with_multidisc 0)
      (synced_state (sample_catalog [multidisc_item]) 0 0 0)
      (by decide) (by decide) (by decide) (by decide) (by decide) (fun _ _ => rfl)).2
        (by decide)).1,
    ((C13_accept_multidisc_or_launch (idle_backend_with_multidisc 0)
      (synced_state (sample_catalog [multidisc_item]) 0 0 0)
      (by decide) (by decide) (by decide) (by decide) (by decide) (fun _ _ => rfl)).2
        (by decide)).2.2 (by decide)⟩

/-! ## The transition gate (C14) -/

/-- C14: in Root mode with `navigate_timeout > 0` each of the actions accept (A),
options (X), exit (Y) and alternate accept (B) is ignored: `menu_accept`,
`menu_settings`, `menu_exit` and `menu_cb` return the state as it was, and a
frame with one of these buttons (and without the combo) leaves `draw_current =
DRAW_UI`, the cursor, the viewport start, the list and the collaborators' world
unchanged, calls no collaborator and reads no list entry. -/
theorem C14_actions_ignored_while_timeout_runs (E : Backend W) (s : State W)
    (hmode : s.draw_current = draw_state.DRAW_UI) (hnt : 0 < s.navigate_timeout) :
    menu_accept E s = s ∧ menu_settings E s = s ∧ menu_exit E s = s ∧ menu_cb E s = s ∧
    (∀ (trg : Triggers) (b : control),
      ¬ (trg.TRIGGER_L = true ∧ trg.TRIGGER_R = true) →
      (b = control.A ∨ b = control.X ∨ b = control.Y ∨ b = control.B) →
      (FOLDERS_handle_input E trg b s).draw_current = draw_state.DRAW_UI ∧
      (FOLDERS_handle_input E trg b s).current_selected_item = s.current_selected_item ∧
      (FOLDERS_handle_input E trg b s).current_starting_index = s.current_starting_index ∧
      (FOLDERS_handle_input E trg b s).list_current = s.list_current ∧
      (FOLDERS_handle_input E trg b s).list_len = s.list_len ∧
      (FOLDERS_handle_input E trg b s).world = s.world ∧
      (FOLDERS_handle_input E trg b s).trace = s.trace ∧
      (FOLDERS_handle_input E trg b s).reads = s.reads) := by
  have hg : s.navigate_timeout > 0 ∨ s.list_len ≤ 0 := Or.inl hnt
  refine ⟨?_, ?_, ?_, ?_, ?_⟩
  · simp only [menu_accept, if_pos hg]
  · simp only [menu_settings, gt_iff_lt, if_pos hnt]
  · simp only [menu_exit, gt_iff_lt, if_pos hnt]
  · simp only [menu_cb, if_pos hg]
  · intro trg b hno hb
    rw [root_frame E trg b s hmode]
    rcases hb with hb | hb | hb | hb <;> subst hb <;>
      simp [handle_input_ui, hno, menu_accept, menu_cb, menu_settings, menu_exit, hnt, hmode]

/-- Witness of C14: right after activation on 21 games the timeout is 18, and a
frame with A leaves the mode, the cursor and the trace as they were. -/
theorem C14_witness :
    0 < (activation_state 21).navigate_timeout ∧
    menu_accept idle_backend (activation_state 21) = activation_state 21 ∧
    (FOLDERS_handle_input idle_backend ⟨false, false⟩ control.A
      (activation_state 21)).trace = (activation_state 21).trace :=
  ⟨by decide,
    (C14_actions_ignored_while_timeout_runs idle_backend (activation_state 21)
      (by decide) (by decide)).1,
    ((C14_actions_ignored_while_timeout_runs idle_backend (activation_state 21)
      (by decide) (by decide)).2.2.2.2 ⟨false, false⟩ control.A (by decide)
        (Or.inl rfl)).2.2.2.2.2.2.1⟩

/-! ## Alternate accept (C15) -/

/-- C15: take a Root-mode state with `navigate_timeout <= 0` and `list_len > 0`.
On a directory (disc starting "DIR") `menu_cb` changes no variable, calls no
collaborator and only reads the selected entry.  On a "PS1" disc it calls
`bloom_launch` on the selected item and `draw_current` stays `DRAW_UI`.  On
every other item it sets `start_cb = 0` and `draw_current = DRAW_CODEBREAKER`
and hands them to `menu_setup`; they have these values afterwards when
`menu_setup` leaves the two as they are. -/
theorem C15_alternate_accept_routing (E : Backend W) (s : State W)
    (hmode : s.draw_current = draw_state.DRAW_UI)
    (hnt : s.navigate_timeout ≤ 0) (hlen : 0 < s.list_len) :
    (strncmp_eq 3 (s.list_current s.current_selected_item).disc ['D', 'I', 'R'] = true →
      menu_cb E s = { s with reads := s.reads ++ [s.current_selected_item] }) ∧
    (strncmp_eq 3 (s.list_current s.current_selected_item).disc ['D', 'I', 'R'] = false →
      strncmp_eq 3 (s.list_current s.current_selected_item).disc ['P', 'S', '1'] = true →
      (menu_cb E s).trace =
        s.trace ++ [Event.bloom_launch (s.list_current s.current_selected_item)] ∧
      (menu_cb E s).draw_current = draw_state.DRAW_UI) ∧
    (strncmp_eq 3 (s.list_current s.current_selected_item).disc ['D', 'I', 'R'] = false →
      strncmp_eq 3 (s.list_current s.current_selected_item).disc ['P', 'S', '1'] = false →
      menu_cb E s =
        call_shared E.menu_setup Event.menu_setup
          { s with start_cb := 0
                   draw_current := draw_state.DRAW_CODEBREAKER
                   reads := s.reads ++ [s.current_selected_item, s.current_selected_item] } ∧
      ((∀ (sh : Shared) (w : W), (E.menu_setup sh w).1.draw_current = sh.draw_current ∧
          (E.menu_setup sh w).1.start_cb = sh.start_cb) →
        (menu_cb E s).draw_current = draw_state.DRAW_CODEBREAKER ∧
        (menu_cb E s).start_cb = 0)) := by
  have hg : ¬ (s.navigate_timeout > 0 ∨ s.list_len ≤ 0) := by omega
  refine ⟨?_, ?_, ?_⟩
  · intro hdir
    simp only [menu_cb, if_neg hg, read_list_current, hdir, if_true]
  · intro hdir hps
    simp [menu_cb, hg, read_list_current, hdir, hps, call_world, hmode]
  · intro hdir hps
    have h : menu_cb E s =
        call_shared E.menu_setup Event.menu_setup
          { s with start_cb := 0
                   draw_current := draw_state.DRAW_CODEBREAKER
                   reads := s.reads ++ [s.current_selected_item, s.current_selected_item] } := by
      simp [menu_cb, hg, read_list_current, hdir, hps]
    refine ⟨h, ?_⟩
    intro hsetup
    rw [h]
    simp only [call_shared]
    exact ⟨(hsetup _ _).1, (hsetup _ _).2⟩

/-- Witness of C15: with the timeout elapsed, alternate accept does nothing on a
folder, launches a PlayStation title, and opens the cheat entry on a game. -/
theorem C15_witness :
    (menu_cb idle_backend
      (synced_state (sample_catalog [folder_item 1, ps1_item, game_item 2]) 0 0 0)).trace = [] ∧
    (menu_cb idle_backend
      (synced_state (sample_catalog [folder_item 1, ps1_item, game_item 2]) 1 0 0)).trace =
        [Event.bloom_launch ps1_item] ∧
    (menu_cb idle_backend
      (synced_state (sample_catalog [folder_item 1, ps1_item, game_item 2]) 2 0 0)).draw_current =
        draw_state.DRAW_CODEBREAKER :=
  ⟨congrArg State.trace ((C15_alternate_accept_routing idle_backend
      (synced_state (sample_catalog [folder_item 1, ps1_item, game_item 2]) 0 0 0)
      (by decide) (by decide) (by decide)).1 (by decide)),
    ((C15_alternate_accept_routing idle_backend
      (synced_state (sample_catalog [folder_item 1, ps1_item, game_item 2]) 1 0 0)
      (by decide) (by decide) (by decide)).2.1 (by decide) (by decide)).1,
    (((C15_alternate_accept_routing idle_backend
      (synced_state (sample_catalog [folder_item 1, ps1_item, game_item 2]) 2 0 0)
      (by decide) (by decide) (by decide)).2.2 (by decide) (by decide)).2
        (fun _ _ => ⟨rfl, rfl⟩)).1⟩

/-! ## A disc-count character that is not a digit (C16) -/

/-- C16 as stated fails: on a title whose `disc[2]` is 'A', not a decimal digit,
accept with the timeout elapsed and the multi-disc setting on computes the
disc-count `'A' - '0' = 17`, enters the multi-disc chooser
(`draw_current = DRAW_MULTIDISC`) and launches nothing. -/
theorem C16_counterexample :
    (synced_state (sample_catalog [malformed_item]) 0 0 0).draw_current = draw_state.DRAW_UI ∧
    (synced_state (sample_catalog [malformed_item]) 0 0 0).navigate_timeout ≤ 0 ∧
    idle_backend.sf_multidisc (synced_state (sample_catalog [malformed_item]) 0 0 0).world ≠ 0 ∧
    strncmp_eq 3 ((synced_state (sample_catalog [malformed_item]) 0 0 0).list_current 0).disc
      ['D', 'I', 'R'] = false ∧
    (char_at ((synced_state (sample_catalog [malformed_item]) 0 0 0).list_current 0).disc
      2).isDigit = false ∧
    disc_set_of ((synced_state (sample_catalog [malformed_item]) 0 0 0).list_current 0) = 17 ∧
    (menu_accept idle_backend
      (synced_state (sample_catalog [malformed_item]) 0 0 0)).draw_current =
        draw_state.DRAW_MULTIDISC ∧
    (menu_accept idle_backend
      (synced_state (sample_catalog [malformed_item]) 0 0 0)).draw_current ≠
        draw_state.DRAW_UI ∧
    (menu_accept idle_backend
      (synced_state (sample_catalog [malformed_item]) 0 0 0)).trace =
        [Event.popup_setup, Event.list_set_multidisc malformed_item.product] := by
  decide

/-- A character is not a decimal digit exactly when its code is below that of '0'
or above that of '9'. -/
theorem not_digit_iff (c : Char) : c.isDigit = false ↔ c.toNat < 48 ∨ 57 < c.toNat := by
  unfold Char.isDigit Char.toNat
  rw [Bool.and_eq_false_iff]
  simp only [decide_eq_false_iff_not, ge_iff_le, UInt32.le_def, BitVec.le_def, not_le]
  have h48 : (UInt32.toBitVec 48).toNat = 48 := rfl
  have h57 : (UInt32.toBitVec 57).toNat = 57 := rfl
  rw [h48, h57]
  rfl

/-- C16, amended: take a state with `navigate_timeout <= 0` and `list_len > 0`
whose selected item is not a directory and whose character `disc[2]` is not a
decimal digit, with the multi-disc setting on.  The character is then below '0'
or above '9'.  If the character is below '0'
(NUL, a space, '/'), accept treats the item as a single disc: it makes one
launch call, `bloom_launch` for a "PS1" disc and `dreamcast_launch_disc`
otherwise, and leaves `draw_current` as it is.  If the character is an ASCII
character above '9' (a letter, say), accept counts more than one disc: it
launches nothing and, `popup_setup` leaving the mode as it is, enters
`DRAW_MULTIDISC`. -/
theorem C16_non_digit_disc_count (E : Backend W) (s : State W)
    (hnt : s.navigate_timeout ≤ 0) (hlen : 0 < s.list_len)
    (hdir : strncmp_eq 3 (s.list_current s.current_selected_item).disc ['D', 'I', 'R'] = false)
    (hflag : E.sf_multidisc s.world ≠ 0)
    (hchar : (char_at (s.list_current s.current_selected_item).disc 2).isDigit = false) :
    ((char_at (s.list_current s.current_selected_item).disc 2).toNat < ('0' : Char).toNat ∨
      ('9' : Char).toNat < (char_at (s.list_current s.current_selected_item).disc 2).toNat) ∧
    ((char_at (s.list_current s.current_selected_item).disc 2).toNat < ('0' : Char).toNat →
      (menu_accept E s).draw_current = s.draw_current ∧
      (menu_accept E s).trace = s.trace ++
        [if strncmp_eq 3 (s.list_current s.current_selected_item).disc ['P', 'S', '1'] = true
          then Event.bloom_launch (s.list_current s.current_selected_item)
          else Event.dreamcast_launch_disc (s.list_current s.current_selected_item)]) ∧
    (('9' : Char).toNat < (char_at (s.list_current s.current_selected_item).disc 2).toNat →
      (char_at (s.list_current s.current_selected_item).disc 2).toNat ≤ 127 →
      (menu_accept E s).trace = s.trace ++ [Event.popup_setup,
        Event.list_set_multidisc (s.list_current s.current_selected_item).product] ∧
      ((∀ (sh : Shared) (w : W), (E.popup_setup sh w).1.draw_current = sh.draw_current) →
        (menu_accept E s).draw_current = draw_state.DRAW_MULTIDISC)) := by
  refine ⟨(not_digit_iff _).1 hchar, ?_, ?_⟩
  · intro hlow
    have hc : ¬ (E.sf_multidisc s.world ≠ 0 ∧
        disc_set_of (s.list_current s.current_selected_item) > 1) := by
      rintro ⟨_, h⟩
      unfold disc_set_of at h
      have h0 : ('0' : Char).toNat = 48 := by decide
      omega
    rw [menu_accept_launch E s hnt hlen hdir hc]
    split_ifs <;> exact ⟨rfl, rfl⟩
  · intro hhigh _
    have hcount : 1 < disc_set_of (s.list_current s.current_selected_item) := by
      unfold disc_set_of
      have h0 : ('0' : Char).toNat = 48 := by decide
      have h9 : ('9' : Char).toNat = 57 := by decide
      omega
    rw [menu_accept_multidisc E s hnt hlen hdir hflag hcount]
    constructor
    · simp only [call_world, call_shared, List.append_assoc, List.singleton_append]
    · intro hpopup
      simp only [call_world, call_shared]
      rw [hpopup]

/-- Witness of C16, amended: a title whose disc field is only "1/" has NUL at
`disc[2]` and is launched directly; the title with "1/A" goes to the chooser. -/
theorem C16_witness :
    (char_at ((synced_state (sample_catalog
      [{ malformed_item with disc := ['1', '/'] }]) 0 0 0).list_current 0).disc 2).isDigit
        = false ∧
    (menu_accept idle_backend (synced_state (sample_catalog
      [{ malformed_item with disc := ['1', '/'] }]) 0 0 0)).trace =
        [Event.dreamcast_launch_disc { malformed_item with disc := ['1', '/'] }] ∧
    (menu_accept idle_backend (synced_state (sample_catalog [malformed_item]) 0 0 0)).trace =
        [Event.popup_setup, Event.list_set_multidisc malformed_item.product] :=
  ⟨by decide,
    ((C16_non_digit_disc_count idle_backend (synced_state (sample_catalog
      [{ malformed_item with disc := ['1', '/'] }]) 0 0 0)
      (by decide) (by decide) (by decide) (by decide) (by decide)).2.1 (by decide)).2,
    ((C16_non_digit_disc_count idle_backend (synced_state (sample_catalog [malformed_item]) 0 0 0)
      (by decide) (by decide) (by decide) (by decide) (by decide)).2.2
        (by decide) (by decide)).1⟩

/-! ## Reads of the list on an empty list (C17) -/

/-- C17, evaluated on the code: on an empty root list (`list_len = 0`), 18 idle
frames after activation let the timeout elapse, and a frame with Y then makes
`menu_exit` read `list_current[0]`, an index that is not below `list_len`;
when an UP press comes first the index read is `-1`.  `menu_exit` has no
`list_len <= 0` test. -/
theorem C17_exit_reads_outside_empty_list :
    (activation_state 0).list_len = 0 ∧
    (run_frames idle_backend
      (List.replicate 18 (⟨false, false⟩, control.NONE) ++ [(⟨false, false⟩, control.Y)])
      (activation_state 0)).list_len = 0 ∧
    (run_frames idle_backend
      (List.replicate 18 (⟨false, false⟩, control.NONE) ++ [(⟨false, false⟩, control.Y)])
      (activation_state 0)).reads = [0] ∧
    (run_frames idle_backend
      (List.replicate 18 (⟨false, false⟩, control.NONE) ++ [(⟨false, false⟩, control.Y)])
      (activation_state 0)).draw_current = draw_state.DRAW_EXIT ∧
    (run_frames idle_backend
      ((⟨false, false⟩, control.UP) :: List.replicate 17 (⟨false, false⟩, control.NONE) ++
        [(⟨false, false⟩, control.Y)])
      (activation_state 0)).reads = [-1] ∧
    ¬ (∀ i ∈ (run_frames idle_backend
      (List.replicate 18 (⟨false, false⟩, control.NONE) ++ [(⟨false, false⟩, control.Y)])
      (activation_state 0)).reads,
        0 ≤ i ∧ i < (activation_state 0).list_len) := by
  decide

/-! ## Activation (C18) -/

/-- C18 as stated fails: after a frame with UP the flag `direction_current` is
set, and `FOLDERS_setup` run from that state leaves it set; a frame with NONE
after the UP frame leaves `direction_last` set, and `FOLDERS_setup` leaves that
one set as well. -/
theorem C18_counterexample :
    (FOLDERS_handle_input idle_backend ⟨false, false⟩ control.UP
      (activation_state 21)).direction_current = true ∧
    (FOLDERS_setup idle_backend
      (FOLDERS_handle_input idle_backend ⟨false, false⟩ control.UP
        (activation_state 21))).direction_current = true ∧
    (FOLDERS_setup idle_backend
      (FOLDERS_handle_input idle_backend ⟨false, false⟩ control.UP
        (activation_state 21))).direction_current ≠ false ∧
    (FOLDERS_setup idle_backend
      (run_frames idle_backend [(⟨false, false⟩, control.UP), (⟨false, false⟩, control.NONE)]
        (activation_state 21))).direction_last ≠ false := by
  decide

/-- C18, amended: after `FOLDERS_setup`, from any prior state,
`current_selected_item = 0`, `current_starting_index = 0`,
`navigate_timeout = INPUT_TIMEOUT_INITIAL` = 18, `draw_current = DRAW_UI`, both
trigger latches are false, the root collection has been requested
(`list_set_folder_root`, then `list_get` and `list_length`, whose answers are
the new list), and `direction_last` and `direction_current` have the values of
the prior state. -/
theorem C18_setup_resets_navigation_state (E : Backend W) (s : State W) :
    (FOLDERS_setup E s).current_selected_item = 0 ∧
    (FOLDERS_setup E s).current_starting_index = 0 ∧
    (FOLDERS_setup E s).navigate_timeout = 18 ∧
    (FOLDERS_setup E s).draw_current = draw_state.DRAW_UI ∧
    (FOLDERS_setup E s).trig_l_held = false ∧
    (FOLDERS_setup E s).trig_r_held = false ∧
    (FOLDERS_setup E s).trace =
      s.trace ++ [Event.list_set_folder_root, Event.list_get, Event.list_length] ∧
    (FOLDERS_setup E s).world = E.list_set_folder_root s.world ∧
    (FOLDERS_setup E s).list_current = E.list_get (E.list_set_folder_root s.world) ∧
    (FOLDERS_setup E s).list_len = E.list_length (E.list_set_folder_root s.world) ∧
    (FOLDERS_setup E s).direction_last = s.direction_last ∧
    (FOLDERS_setup E s).direction_current = s.direction_current := by
  simp [FOLDERS_setup, call_world, emit, INPUT_TIMEOUT_INITIAL]

/-! ## The combo and the mode (C19) -/

/-- C19 as stated fails: in the Settings mode (`draw_current = DRAW_MENU`), inside
a folder entered from cursor 12, a frame on which both triggers become pressed
only calls `handle_input_menu`; `list_folder_go_back` is not called, the folder
stack keeps its frame and the cursor is not restored to 12. -/
theorem C19_counterexample :
    idle_backend.list_folder_is_root
      ({ synced_state (Catalog.list_folder_enter 7 12 (sample_catalog (sample_root 20))) 0 0 0
          with draw_current := draw_state.DRAW_MENU } : State Catalog).world = false ∧
    (FOLDERS_handle_input idle_backend ⟨true, true⟩ control.NONE
      { synced_state (Catalog.list_folder_enter 7 12 (sample_catalog (sample_root 20))) 0 0 0
          with draw_current := draw_state.DRAW_MENU }).trace =
        [Event.handle_input_menu control.NONE] ∧
    go_back_calls (FOLDERS_handle_input idle_backend ⟨true, true⟩ control.NONE
      { synced_state (Catalog.list_folder_enter 7 12 (sample_catalog (sample_root 20))) 0 0 0
          with draw_current := draw_state.DRAW_MENU }).trace = 0 ∧
    (FOLDERS_handle_input idle_backend ⟨true, true⟩ control.NONE
      { synced_state (Catalog.list_folder_enter 7 12 (sample_catalog (sample_root 20))) 0 0 0
          with draw_current := draw_state.DRAW_MENU }).world.stack.length = 1 ∧
    (FOLDERS_handle_input idle_backend ⟨true, true⟩ control.NONE
      { synced_state (Catalog.list_folder_enter 7 12 (sample_catalog (sample_root 20))) 0 0 0
          with draw_current := draw_state.DRAW_MENU }).current_selected_item = 0 ∧
    (FOLDERS_handle_input idle_backend ⟨true, true⟩ control.NONE
      (synced_state (Catalog.list_folder_enter 7 12 (sample_catalog (sample_root 20)))
        0 0 0)).current_selected_item = 12 := by
  decide

/-- `run_cb` calls no `list_folder_go_back` and leaves the cursor, the viewport
start and the list length as they are. -/
theorem run_cb_keeps_cursor (E : Backend W) (s : State W) :
    go_back_calls (run_cb E s).trace = go_back_calls s.trace ∧
    (run_cb E s).current_selected_item = s.current_selected_item ∧
    (run_cb E s).current_starting_index = s.current_starting_index ∧
    (run_cb E s).list_len = s.list_len := by
  simp only [run_cb, read_list_current, call_world, call_shared, go_back_calls]
  split_ifs <;> simp [List.count_append]

/-- In a mode other than Root a frame calls no `list_folder_go_back` and leaves the
cursor, the viewport start and the list length as they are. -/
theorem popup_frame_keeps_cursor (E : Backend W) (trg : Triggers) (b : control) (s : State W)
    (hmode : s.draw_current ≠ draw_state.DRAW_UI) :
    go_back_calls (FOLDERS_handle_input E trg b s).trace = go_back_calls s.trace ∧
    (FOLDERS_handle_input E trg b s).current_selected_item = s.current_selected_item ∧
    (FOLDERS_handle_input E trg b s).current_starting_index = s.current_starting_index ∧
    (FOLDERS_handle_input E trg b s).list_len = s.list_len := by
  cases hd : s.draw_current with
  | DRAW_UI => exact absurd hd hmode
  | DRAW_MENU =>
    simp [FOLDERS_handle_input, hd, call_shared, go_back_calls, List.count_append]
  | DRAW_CREDITS =>
    simp [FOLDERS_handle_input, hd, call_shared, go_back_calls, List.count_append]
  | DRAW_MULTIDISC =>
    simp [FOLDERS_handle_input, hd, call_shared, go_back_calls, List.count_append]
  | DRAW_EXIT =>
    simp [FOLDERS_handle_input, hd, call_shared, go_back_calls, List.count_append]
  | DRAW_CODEBREAKER =>
    simp only [FOLDERS_handle_input, hd]
    split_ifs
    · have h := run_cb_keeps_cursor E
        (call_shared (E.handle_input_codebreaker b) (Event.handle_input_codebreaker b) s)
      refine ⟨?_, ?_, ?_, ?_⟩
      · show go_back_calls (run_cb E _).trace = _
        rw [h.1]
        simp [call_shared, go_back_calls, List.count_append]
      · show (run_cb E _).current_selected_item = _
        rw [h.2.1]
        rfl
      · show (run_cb E _).current_starting_index = _
        rw [h.2.2.1]
        rfl
      · show (run_cb E _).list_len = _
        rw [h.2.2.2]
        rfl
    · simp [call_shared, go_back_calls, List.count_append]

/-- C19, amended: take a frame (`FOLDERS_handle_input`, any button) on which both
triggers are pressed while a trigger latch is still clear and the folder
hierarchy is not at root; `sh` stands for the shared variables at the start of
the frame.  In Root mode (`draw_current = DRAW_UI`) the frame performs the
go-back and nothing else: it calls `list_folder_is_root`, `list_folder_go_back`,
`list_get` and `list_length`, restores the cursor and derives the viewport
start from it, without the accept action.  In each of the other five modes no
`list_folder_go_back` is called, the cursor, the viewport start and the list
length are unchanged, and the frame is dispatched to the handler of that mode:
`handle_input_menu`, `handle_input_credits`, `handle_input_multidisc`,
`handle_input_exit` or `handle_input_codebreaker` is the one collaborator
called, what it writes to the shared variables and to its world is kept, and
the timeout is then decremented once; after `handle_input_codebreaker` the
frame also runs `run_cb` when `start_cb` is set. -/
theorem C19_combo_goes_back_in_root_mode_only (E : Backend W) (s : State W) (trg : Triggers)
    (b : control) (sh : Shared)
    (hsh : sh = ⟨s.draw_current, s.navigate_timeout, s.start_cb, s.cb_multidisc⟩)
    (hl : trg.TRIGGER_L = true) (hr : trg.TRIGGER_R = true)
    (hlatch : s.trig_l_held = false ∨ s.trig_r_held = false)
    (hroot : E.list_folder_is_root s.world = false) :
    (s.draw_current = draw_state.DRAW_UI →
      (FOLDERS_handle_input E trg b s).trace =
        s.trace ++ [Event.list_folder_is_root, Event.list_folder_go_back, Event.list_get,
          Event.list_length] ∧
      (FOLDERS_handle_input E trg b s).world = (E.list_folder_go_back s.world).2 ∧
      (FOLDERS_handle_input E trg b s).current_selected_item =
        (E.list_folder_go_back s.world).1 ∧
      (FOLDERS_handle_input E trg b s).current_starting_index =
        (if (E.list_folder_go_back s.world).1 < 17 then 0
          else max 0 (min ((E.list_folder_go_back s.world).1 - 8)
            (E.list_length (E.list_folder_go_back s.world).2 - 17))) ∧
      (FOLDERS_handle_input E trg b s).draw_current = draw_state.DRAW_UI) ∧
    (s.draw_current ≠ draw_state.DRAW_UI →
      go_back_calls (FOLDERS_handle_input E trg b s).trace = go_back_calls s.trace ∧
      (FOLDERS_handle_input E trg b s).current_selected_item = s.current_selected_item ∧
      (FOLDERS_handle_input E trg b s).current_starting_index = s.current_starting_index ∧
      (FOLDERS_handle_input E trg b s).list_len = s.list_len) ∧
    (s.draw_current = draw_state.DRAW_MENU →
      FOLDERS_handle_input E trg b s =
        { s with draw_current := (E.handle_input_menu b sh s.world).1.draw_current
                 navigate_timeout := (E.handle_input_menu b sh s.world).1.navigate_timeout - 1
                 start_cb := (E.handle_input_menu b sh s.world).1.start_cb
                 cb_multidisc := (E.handle_input_menu b sh s.world).1.cb_multidisc
                 world := (E.handle_input_menu b sh s.world).2
                 trace := s.trace ++ [Event.handle_input_menu b] }) ∧
    (s.draw_current = draw_state.DRAW_CREDITS →
      FOLDERS_handle_input E trg b s =
        { s with draw_current := (E.handle_input_credits b sh s.world).1.draw_current
                 navigate_timeout := (E.handle_input_credits b sh s.world).1.navigate_timeout - 1
                 start_cb := (E.handle_input_credits b sh s.world).1.start_cb
                 cb_multidisc := (E.handle_input_credits b sh s.world).1.cb_multidisc
                 world := (E.handle_input_credits b sh s.world).2
                 trace := s.trace ++ [Event.handle_input_credits b] }) ∧
    (s.draw_current = draw_state.DRAW_MULTIDISC →
      FOLDERS_handle_input E trg b s =
        { s with draw_current := (E.handle_input_multidisc b sh s.world).1.draw_current
                 navigate_timeout :=
                   (E.handle_input_multidisc b sh s.world).1.navigate_timeout - 1
                 start_cb := (E.handle_input_multidisc b sh s.world).1.start_cb
                 cb_multidisc := (E.handle_input_multidisc b sh s.world).1.cb_multidisc
                 world := (E.handle_input_multidisc b sh s.world).2
                 trace := s.trace ++ [Event.handle_input_multidisc b] }) ∧
    (s.draw_current = draw_state.DRAW_EXIT →
      FOLDERS_handle_input E trg b s =
        { s with draw_current := (E.handle_input_exit b sh s.world).1.draw_current
                 navigate_timeout := (E.handle_input_exit b sh s.world).1.navigate_timeout - 1
                 start_cb := (E.handle_input_exit b sh s.world).1.start_cb
                 cb_multidisc := (E.handle_input_exit b sh s.world).1.cb_multidisc
                 world := (E.handle_input_exit b sh s.world).2
                 trace := s.trace ++ [Event.handle_input_exit b] }) ∧
    (s.draw_current = draw_state.DRAW_CODEBREAKER →
      ((E.handle_input_codebreaker b sh s.world).1.start_cb = 0 →
        FOLDERS_handle_input E trg b s =
          { s with draw_current := (E.handle_input_codebreaker b sh s.world).1.draw_current
                   navigate_timeout :=
                     (E.handle_input_codebreaker b sh s.world).1.navigate_timeout - 1
                   start_cb := (E.handle_input_codebreaker b sh s.world).1.start_cb
                   cb_multidisc := (E.handle_input_codebreaker b sh s.world).1.cb_multidisc
                   world := (E.handle_input_codebreaker b sh s.world).2
                   trace := s.trace ++ [Event.handle_input_codebreaker b] }) ∧
      ((E.handle_input_codebreaker b sh s.world).1.start_cb ≠ 0 →
        FOLDERS_handle_input E trg b s =
          { run_cb E
              { s with
                draw_current := (E.handle_input_codebreaker b sh s.world).1.draw_current
                navigate_timeout := (E.handle_input_codebreaker b sh s.world).1.navigate_timeout
                start_cb := (E.handle_input_codebreaker b sh s.world).1.start_cb
                cb_multidisc := (E.handle_input_codebreaker b sh s.world).1.cb_multidisc
                world := (E.handle_input_codebreaker b sh s.world).2
                trace := s.trace ++ [Event.handle_input_codebreaker b] } with
            navigate_timeout :=
              (run_cb E
                { s with
                  draw_current := (E.handle_input_codebreaker b sh s.world).1.draw_current
                  navigate_timeout :=
                    (E.handle_input_codebreaker b sh s.world).1.navigate_timeout
                  start_cb := (E.handle_input_codebreaker b sh s.world).1.start_cb
                  cb_multidisc := (E.handle_input_codebreaker b sh s.world).1.cb_multidisc
                  world := (E.handle_input_codebreaker b sh s.world).2
                  trace := s.trace ++ [Event.handle_input_codebreaker b] }).navigate_timeout
                - 1 })) := by
  subst hsh
  refine ⟨?_, ?_, ?_, ?_, ?_, ?_, ?_⟩
  · intro hmode
    rw [root_frame E trg b s hmode]
    simp only [handle_input_ui, hl, hr, hlatch, hroot, emit, and_self, if_true, ITEMS_PER_PAGE]
    split_ifs <;> simp_all <;> omega
  · intro hmode
    exact popup_frame_keeps_cursor E trg b s hmode
  · intro hd
    simp only [FOLDERS_handle_input, hd, call_shared]
  · intro hd
    simp only [FOLDERS_handle_input, hd, call_shared]
  · intro hd
    simp only [FOLDERS_handle_input, hd, call_shared]
  · intro hd
    simp only [FOLDERS_handle_input, hd, call_shared]
  · intro hd
    constructor
    · intro h0
      rw [hd] at h0
      simp only [FOLDERS_handle_input, hd, call_shared, h0, ne_eq, not_true_eq_false, if_false]
    · intro h0
      rw [hd] at h0
      simp only [FOLDERS_handle_input, hd, call_shared, ne_eq, h0, not_false_eq_true, if_true]

/-- Witness of C19, amended: inside a folder entered from cursor 12, in Root mode,
the combo frame (here with the button A) goes back to cursor 12 and calls only
the list provider. -/
theorem C19_witness :
    idle_backend.list_folder_is_root
      (synced_state (Catalog.list_folder_enter 7 12 (sample_catalog (sample_root 20)))
        0 0 0).world = false ∧
    (FOLDERS_handle_input idle_backend ⟨true, true⟩ control.A
      (synced_state (Catalog.list_folder_enter 7 12 (sample_catalog (sample_root 20)))
        0 0 0)).trace =
      [Event.list_folder_is_root, Event.list_folder_go_back, Event.list_get,
        Event.list_length] ∧
    (FOLDERS_handle_input idle_backend ⟨true, true⟩ control.A
      (synced_state (Catalog.list_folder_enter 7 12 (sample_catalog (sample_root 20)))
        0 0 0)).current_selected_item = 12 :=
  ⟨by decide,
    ((C19_combo_goes_back_in_root_mode_only idle_backend
      (synced_state (Catalog.list_folder_enter 7 12 (sample_catalog (sample_root 20))) 0 0 0)
      ⟨true, true⟩ control.A _ rfl rfl rfl (Or.inl (by decide)) (by decide)).1 (by decide)).1,
    ((C19_combo_goes_back_in_root_mode_only idle_backend
      (synced_state (Catalog.list_folder_enter 7 12 (sample_catalog (sample_root 20))) 0 0 0)
      ⟨true, true⟩ control.A _ rfl rfl rfl (Or.inl (by decide)) (by decide)).1 (by decide)).2.2.1⟩

/-! ## The typematic schedule of a held direction (C20) -/

/-- A move leaves the mode and the direction flags as they are, and sets the
timeout as the gate decides. -/
theorem move_apply_fields (m : Move) (s : State W) :
    (m.apply s).draw_current = s.draw_current ∧
    (m.apply s).direction_current = s.direction_current ∧
    (m.apply s).navigate_timeout =
      if direction_held s = true ∧ s.navigate_timeout > 0 then s.navigate_timeout
      else if direction_held s = true then 5 else 18 := by
  cases s
  cases m <;>
    simp only [Move.apply, menu_decrement, menu_increment, direction_held,
      INPUT_TIMEOUT_REPEAT, INPUT_TIMEOUT_INITIAL] <;>
    split_ifs <;> exact ⟨rfl, rfl, rfl⟩

/-- A Root-mode frame with a directional button and without the combo is the move
call in the state `at_move_call` followed by the decrement of the timeout. -/
theorem directional_frame (E : Backend W) (trg : Triggers) (b : control) (m : Move)
    (s : State W) (hmode : s.draw_current = draw_state.DRAW_UI) (hm : b.move_of = some m)
    (hno : ¬ (trg.TRIGGER_L = true ∧ trg.TRIGGER_R = true)) :
    FOLDERS_handle_input E trg b s =
      { m.apply (at_move_call s) with
        navigate_timeout := (m.apply (at_move_call s)).navigate_timeout - 1 } := by
  rw [root_frame E trg b s hmode, handle_input_ui_directional E trg b m s hm hno]

/-- The mode, the direction flag and the timeout after a directional frame. -/
theorem directional_frame_fields (E : Backend W) (trg : Triggers) (b : control) (m : Move)
    (s : State W) (hmode : s.draw_current = draw_state.DRAW_UI) (hm : b.move_of = some m)
    (hno : ¬ (trg.TRIGGER_L = true ∧ trg.TRIGGER_R = true)) :
    (FOLDERS_handle_input E trg b s).draw_current = draw_state.DRAW_UI ∧
    (FOLDERS_handle_input E trg b s).direction_current = true ∧
    (FOLDERS_handle_input E trg b s).navigate_timeout =
      (if s.direction_current = true ∧ s.navigate_timeout > 0 then s.navigate_timeout
        else if s.direction_current = true then 5 else 18) - 1 := by
  rw [directional_frame E trg b m s hmode hm hno]
  have h := move_apply_fields m (at_move_call s)
  refine ⟨?_, ?_, ?_⟩
  · show (m.apply (at_move_call s)).draw_current = _
    rw [h.1]
    exact hmode
  · show (m.apply (at_move_call s)).direction_current = _
    rw [h.2.1]
    rfl
  · show (m.apply (at_move_call s)).navigate_timeout - 1 = _
    rw [h.2.2]
    simp only [direction_held, at_move_call, Bool.and_true]

/-- One more frame of a sequence of frames. -/
theorem run_frames_concat (E : Backend W) (fs : List (Triggers × control))
    (f : Triggers × control) (s : State W) :
    run_frames E (fs ++ [f]) s = FOLDERS_handle_input E f.1 f.2 (run_frames E fs s) := by
  simp only [run_frames, List.foldl_append, List.foldl_cons, List.foldl_nil]

/-- The closed form of the timeout follows the frame rule of a held direction. -/
theorem typematic_timeout_succ (k : Nat) (hk : 1 ≤ k) :
    typematic_timeout (k + 1) =
      (if typematic_timeout k > 0 then typematic_timeout k else 5) - 1 := by
  unfold typematic_timeout
  split_ifs <;> push_cast at * <;> omega

/-- The state after the first `k` frames of a held direction: Root mode, and from
the first frame on the direction flag set and the timeout in closed form. -/
theorem held_direction_state (E : Backend W) (s : State W) (b : control) (m : Move)
    (hb : b.move_of = some m) (hmode : s.draw_current = draw_state.DRAW_UI)
    (hprev : s.direction_current = false) (pre : List Triggers)
    (hpre : ∀ x ∈ pre, ¬ (x.TRIGGER_L = true ∧ x.TRIGGER_R = true)) :
    (run_frames E (pre.map (fun x => (x, b))) s).draw_current = draw_state.DRAW_UI ∧
    (pre = [] → (run_frames E (pre.map (fun x => (x, b))) s).direction_current = false) ∧
    (pre ≠ [] →
      (run_frames E (pre.map (fun x => (x, b))) s).direction_current = true ∧
      (run_frames E (pre.map (fun x => (x, b))) s).navigate_timeout =
        typematic_timeout pre.length) := by
  induction pre using List.reverseRecOn with
  | nil => exact ⟨hmode, fun _ => hprev, fun h => absurd rfl h⟩
  | append_singleton pre x ih =>
    have hpre' : ∀ y ∈ pre, ¬ (y.TRIGGER_L = true ∧ y.TRIGGER_R = true) :=
      fun y hy => hpre y (List.mem_append_left _ hy)
    have hx : ¬ (x.TRIGGER_L = true ∧ x.TRIGGER_R = true) :=
      hpre x (List.mem_append_right _ (List.mem_singleton_self x))
    obtain ⟨ih1, ih2, ih3⟩ := ih hpre'
    rw [List.map_append, List.map_singleton, run_frames_concat]
    have hf := directional_frame_fields E x b m
      (run_frames E (pre.map (fun x => (x, b))) s) ih1 hb hx
    refine ⟨hf.1, fun h => absurd h (by simp), fun _ => ⟨hf.2.1, ?_⟩⟩
    rw [hf.2.2]
    by_cases hnil : pre = []
    · rw [ih2 hnil]
      subst hnil
      simp [typematic_timeout]
    · obtain ⟨hd, hn⟩ := ih3 hnil
      have hlen : 1 ≤ pre.length := List.length_pos.mpr hnil
      rw [hd, hn, List.length_append, List.length_singleton, typematic_timeout_succ _ hlen]
      simp only [true_and, if_true]

/-- C20: let the frame before be non-directional (`direction_current` false), in
Root mode, and let the same directional button `b` (UP, DOWN, LEFT, TRIG_L,
RIGHT or TRIG_R, whose move is `m`) come on consecutive frames without the
combo, with any initial `navigate_timeout` and any list.  Frame `k` is the frame
after `pre.length = k - 1` such frames.  It runs in Root mode and is the move
call in the state `at_move_call` followed by the decrement of the timeout; the
call is honored (the timeout has elapsed or the direction is not held) exactly
when `k = 1` or `k = 19 + 5j`; and the timeout at the end of the frame is 17
after frame 1, counts down to 0 after frame 18 and cycles 4, 3, 2, 1, 0 from
frame 19 on. -/
theorem C20_typematic_schedule (E : Backend W) (s : State W) (b : control) (m : Move)
    (pre : List Triggers) (t : Triggers)
    (hb : b.move_of = some m) (hmode : s.draw_current = draw_state.DRAW_UI)
    (hprev : s.direction_current = false)
    (hpre : ∀ x ∈ pre, ¬ (x.TRIGGER_L = true ∧ x.TRIGGER_R = true))
    (ht : ¬ (t.TRIGGER_L = true ∧ t.TRIGGER_R = true)) :
    (run_frames E (pre.map (fun x => (x, b))) s).draw_current = draw_state.DRAW_UI ∧
    FOLDERS_handle_input E t b (run_frames E (pre.map (fun x => (x, b))) s) =
      { m.apply (at_move_call (run_frames E (pre.map (fun x => (x, b))) s)) with
        navigate_timeout :=
          (m.apply (at_move_call
            (run_frames E (pre.map (fun x => (x, b))) s))).navigate_timeout - 1 } ∧
    (((at_move_call (run_frames E (pre.map (fun x => (x, b))) s)).navigate_timeout ≤ 0 ∨
        direction_held (at_move_call (run_frames E (pre.map (fun x => (x, b))) s)) = false) ↔
      (pre.length + 1 = 1 ∨ ∃ j : Nat, pre.length + 1 = 19 + 5 * j)) ∧
    (FOLDERS_handle_input E t b
      (run_frames E (pre.map (fun x => (x, b))) s)).navigate_timeout =
        typematic_timeout (pre.length + 1) := by
  obtain ⟨h1, h2, h3⟩ := held_direction_state E s b m hb hmode hprev pre hpre
  have hall := held_direction_state E s b m hb hmode hprev (pre ++ [t])
    (fun x hx => by
      rcases List.mem_append.mp hx with h | h
      · exact hpre x h
      · rw [List.mem_singleton.mp h]; exact ht)
  refine ⟨h1, directional_frame E t b m _ h1 hb ht, ?_, ?_⟩
  · by_cases hnil : pre = []
    · have hd := h2 hnil
      subst hnil
      simp only [at_move_call, direction_held, hd, Bool.false_and, or_true, List.length_nil,
        zero_add, true_or]
    · obtain ⟨hd, hn⟩ := h3 hnil
      have hlen : 1 ≤ pre.length := List.length_pos.mpr hnil
      simp only [at_move_call, direction_held, hd, hn, Bool.and_self, Bool.true_eq_false,
        or_false, typematic_timeout]
      constructor
      · intro h
        right
        split_ifs at h with h18
        · exact ⟨0, by omega⟩
        · exact ⟨(pre.length - 18) / 5, by omega⟩
      · rintro (h | ⟨j, hj⟩)
        · omega
        · split_ifs <;> omega
  · have h := (hall.2.2 (by simp)).2
    rw [List.map_append, List.map_singleton, run_frames_concat, List.length_append,
      List.length_singleton] at h
    exact h

/-- Witness of C20: with RIGHT held from the activation state on 21 games, frame
19 (after 18 frames) is honored and ends with the timeout at 4, and frame 20 is
not honored. -/
theorem C20_witness :
    (activation_state 21).direction_current = false ∧
    ((at_move_call (run_frames idle_backend
        ((List.replicate 18 (⟨false, false⟩ : Triggers)).map (fun x => (x, control.RIGHT)))
        (activation_state 21))).navigate_timeout ≤ 0 ∨
      direction_held (at_move_call (run_frames idle_backend
        ((List.replicate 18 (⟨false, false⟩ : Triggers)).map (fun x => (x, control.RIGHT)))
        (activation_state 21))) = false) ∧
    (FOLDERS_handle_input idle_backend ⟨false, false⟩ control.RIGHT
      (run_frames idle_backend
        ((List.replicate 18 (⟨false, false⟩ : Triggers)).map (fun x => (x, control.RIGHT)))
        (activation_state 21))).navigate_timeout = 4 ∧
    ¬ ((at_move_call (run_frames idle_backend
        ((List.replicate 19 (⟨false, false⟩ : Triggers)).map (fun x => (x, control.RIGHT)))
        (activation_state 21))).navigate_timeout ≤ 0 ∨
      direction_held (at_move_call (run_frames idle_backend
        ((List.replicate 19 (⟨false, false⟩ : Triggers)).map (fun x => (x, control.RIGHT)))
        (activation_state 21))) = false) :=
  ⟨by decide,
    (C20_typematic_schedule idle_backend (activation_state 21) control.RIGHT Move.inc5
      (List.replicate 18 ⟨false, false⟩) ⟨false, false⟩ rfl (by decide) (by decide)
      (by decide) (by decide)).2.2.1.2 (Or.inr ⟨0, rfl⟩),
    (C20_typematic_schedule idle_backend (activation_state 21) control.RIGHT Move.inc5
      (List.replicate 18 ⟨false, false⟩) ⟨false, false⟩ rfl (by decide) (by decide)
      (by decide) (by decide)).2.2.2,
    fun h => absurd ((C20_typematic_schedule idle_backend (activation_state 21) control.RIGHT
      Move.inc5 (List.replicate 19 ⟨false, false⟩) ⟨false, false⟩ rfl (by decide) (by decide)
      (by decide) (by decide)).2.2.1.1 h)
      (by
        rintro (h | ⟨j, hj⟩)
        · simp at h
        · simp only [List.length_replicate] at hj
          omega)⟩

/-! ## The two go-back paths (C21, C22) -/

/-- The state after the go-back through the `[..]` entry, field by field. -/
theorem menu_accept_go_back_fields (E : Backend W) (s : State W) (r n : Int)
    (hr : (E.list_folder_go_back s.world).1 = r)
    (hn : E.list_length (E.list_folder_go_back s.world).2 = n)
    (hnt : s.navigate_timeout ≤ 0) (hlen : 0 < s.list_len)
    (hdir : strncmp_eq 3 (s.list_current s.current_selected_item).disc ['D', 'I', 'R'] = true)
    (hname : strcmp_eq (s.list_current s.current_selected_item).name ['[', '.', '.', ']'] = true) :
    (menu_accept E s).list_len = n ∧
    (menu_accept E s).current_selected_item = r ∧
    (menu_accept E s).current_starting_index =
      (if r < 17 then 0 else max 0 (min (r - 8) (n - 17))) ∧
    (menu_accept E s).navigate_timeout = 36 ∧
    (menu_accept E s).draw_current = draw_state.DRAW_UI := by
  have hg : ¬ (s.navigate_timeout > 0 ∨ s.list_len ≤ 0) := by omega
  simp only [menu_accept, if_neg hg, read_list_current, hdir, hname, emit, if_true, hr, hn,
    ITEMS_PER_PAGE, INPUT_TIMEOUT_INITIAL]
  split_ifs <;> simp_all <;> omega

/-- The state after the go-back through the L+R combo, field by field. -/
theorem handle_input_ui_go_back_fields (E : Backend W) (s : State W) (r n : Int)
    (trg : Triggers) (input : control)
    (hr : (E.list_folder_go_back s.world).1 = r)
    (hn : E.list_length (E.list_folder_go_back s.world).2 = n)
    (hl : trg.TRIGGER_L = true) (hrr : trg.TRIGGER_R = true)
    (hlatch : s.trig_l_held = false ∨ s.trig_r_held = false)
    (hroot : E.list_folder_is_root s.world = false) :
    (handle_input_ui E trg input s).list_len = n ∧
    (handle_input_ui E trg input s).current_selected_item = r ∧
    (handle_input_ui E trg input s).current_starting_index =
      (if r < 17 then 0 else max 0 (min (r - 8) (n - 17))) ∧
    (handle_input_ui E trg input s).navigate_timeout = 36 ∧
    (handle_input_ui E trg input s).draw_current = s.draw_current := by
  simp only [handle_input_ui, hl, hrr, hlatch, hroot, emit, and_self, if_true, hr, hn,
    ITEMS_PER_PAGE, INPUT_TIMEOUT_INITIAL]
  split_ifs <;> simp_all <;> omega

/-- C21: let the list provider return the restored cursor `r` and the parent list
length `n` both to the accept of the `[..]` entry (`menu_accept`, state `sa`)
and to the L+R combo (`handle_input_ui`, state `sc`, in Root mode, the only
mode in which `handle_input_ui` runs).  The two paths produce the same `current_selected_item`, the same
`current_starting_index` and the same `navigate_timeout`, which is
`2 * INPUT_TIMEOUT_INITIAL` = 36, and both leave `draw_current = DRAW_UI`. -/
theorem C21_back_paths_agree (E : Backend W) (sa sc : State W) (r n : Int)
    (trg : Triggers) (input : control)
    (hra : (E.list_folder_go_back sa.world).1 = r)
    (hna : E.list_length (E.list_folder_go_back sa.world).2 = n)
    (hrc : (E.list_folder_go_back sc.world).1 = r)
    (hnc : E.list_length (E.list_folder_go_back sc.world).2 = n)
    (hnt : sa.navigate_timeout ≤ 0) (hlen : 0 < sa.list_len)
    (hdir : strncmp_eq 3 (sa.list_current sa.current_selected_item).disc ['D', 'I', 'R'] = true)
    (hname : strcmp_eq (sa.list_current sa.current_selected_item).name
      ['[', '.', '.', ']'] = true)
    (hmode_c : sc.draw_current = draw_state.DRAW_UI)
    (hl : trg.TRIGGER_L = true) (hrr : trg.TRIGGER_R = true)
    (hlatch : sc.trig_l_held = false ∨ sc.trig_r_held = false)
    (hroot : E.list_folder_is_root sc.world = false) :
    (menu_accept E sa).current_selected_item =
      (handle_input_ui E trg input sc).current_selected_item ∧
    (menu_accept E sa).current_starting_index =
      (handle_input_ui E trg input sc).current_starting_index ∧
    (menu_accept E sa).navigate_timeout = (handle_input_ui E trg input sc).navigate_timeout ∧
    (menu_accept E sa).navigate_timeout = 2 * INPUT_TIMEOUT_INITIAL ∧
    (2 * INPUT_TIMEOUT_INITIAL = 36) ∧
    (menu_accept E sa).list_len = (handle_input_ui E trg input sc).list_len ∧
    (menu_accept E sa).draw_current = draw_state.DRAW_UI ∧
    (handle_input_ui E trg input sc).draw_current = draw_state.DRAW_UI := by
  have ha := menu_accept_go_back_fields E sa r n hra hna hnt hlen hdir hname
  have hc := handle_input_ui_go_back_fields E sc r n trg input hrc hnc hl hrr hlatch hroot
  have h36 : (2 : Int) * INPUT_TIMEOUT_INITIAL = 36 := by decide
  refine ⟨?_, ?_, ?_, ?_, h36, ?_, ha.2.2.2.2, ?_⟩
  · rw [ha.2.1, hc.2.1]
  · rw [ha.2.2.1, hc.2.2.1]
  · rw [ha.2.2.2.1, hc.2.2.2.1]
  · rw [ha.2.2.2.1, h36]
  · rw [ha.1, hc.1]
  · rw [hc.2.2.2.2]
    exact hmode_c

/-- Witness of C21: inside a folder entered from cursor 40 of a root list of 60
entries, with the selection on `[..]` and the timeout elapsed, the accept and
the combo both give the selection 40, the viewport start 32 and the timeout
36. -/
theorem C21_witness :
    (menu_accept idle_backend
      (synced_state (Catalog.list_folder_enter 21 40 (sample_catalog (sample_root 60)))
        0 0 0)).current_starting_index =
      (handle_input_ui idle_backend ⟨true, true⟩ control.NONE
        (synced_state (Catalog.list_folder_enter 21 40 (sample_catalog (sample_root 60)))
          0 0 0)).current_starting_index ∧
    (menu_accept idle_backend
      (synced_state (Catalog.list_folder_enter 21 40 (sample_catalog (sample_root 60)))
        0 0 0)).navigate_timeout =
      (handle_input_ui idle_backend ⟨true, true⟩ control.NONE
        (synced_state (Catalog.list_folder_enter 21 40 (sample_catalog (sample_root 60)))
          0 0 0)).navigate_timeout ∧
    (menu_accept idle_backend
      (synced_state (Catalog.list_folder_enter 21 40 (sample_catalog (sample_root 60)))
        0 0 0)).current_selected_item = 40 ∧
    (menu_accept idle_backend
      (synced_state (Catalog.list_folder_enter 21 40 (sample_catalog (sample_root 60)))
        0 0 0)).current_starting_index = 32 ∧
    (menu_accept idle_backend
      (synced_state (Catalog.list_folder_enter 21 40 (sample_catalog (sample_root 60)))
        0 0 0)).navigate_timeout = 36 :=
  ⟨(C21_back_paths_agree idle_backend
      (synced_state (Catalog.list_folder_enter 21 40 (sample_catalog (sample_root 60))) 0 0 0)
      (synced_state (Catalog.list_folder_enter 21 40 (sample_catalog (sample_root 60))) 0 0 0)
      40 60 ⟨true, true⟩ control.NONE (by decide) (by decide) (by decide) (by decide)
      (by decide) (by decide) (by decide) (by decide)
      (by decide) rfl rfl (Or.inl (by decide)) (by decide)).2.1,
    (C21_back_paths_agree idle_backend
      (synced_state (Catalog.list_folder_enter 21 40 (sample_catalog (sample_root 60))) 0 0 0)
      (synced_state (Catalog.list_folder_enter 21 40 (sample_catalog (sample_root 60))) 0 0 0)
      40 60 ⟨true, true⟩ control.NONE (by decide) (by decide) (by decide) (by decide)
      (by decide) (by decide) (by decide) (by decide)
      (by decide) rfl rfl (Or.inl (by decide)) (by decide)).2.2.1,
    by decide, by decide, by decide⟩

/-- C22: let a go-back return a restored cursor `r` with `0 <= r < n` into a
parent list of length `n > 0`.  After the go-back, through the `[..]` entry and
through the L+R combo alike, the list length is `n`,
`0 <= current_starting_index <= max(0, n - 17)` and
`current_starting_index <= current_selected_item <= current_starting_index + 16`:
the restored selection, which is `r`, is inside the visible window. -/
theorem C22_go_back_reestablishes_invariants (E : Backend W) (s : State W) (r n : Int)
    (hr : (E.list_folder_go_back s.world).1 = r)
    (hn : E.list_length (E.list_folder_go_back s.world).2 = n)
    (hn0 : 0 < n) (hr0 : 0 ≤ r) (hrn : r < n) :
    (s.navigate_timeout ≤ 0 → 0 < s.list_len →
      strncmp_eq 3 (s.list_current s.current_selected_item).disc ['D', 'I', 'R'] = true →
      strcmp_eq (s.list_current s.current_selected_item).name ['[', '.', '.', ']'] = true →
      (menu_accept E s).list_len = n ∧
      (menu_accept E s).current_selected_item = r ∧
      0 ≤ (menu_accept E s).current_starting_index ∧
      (menu_accept E s).current_starting_index ≤ max 0 (n - 17) ∧
      (menu_accept E s).current_starting_index ≤ (menu_accept E s).current_selected_item ∧
      (menu_accept E s).current_selected_item ≤
        (menu_accept E s).current_starting_index + 16) ∧
    (∀ (trg : Triggers) (input : control),
      trg.TRIGGER_L = true → trg.TRIGGER_R = true →
      (s.trig_l_held = false ∨ s.trig_r_held = false) →
      E.list_folder_is_root s.world = false →
      (handle_input_ui E trg input s).list_len = n ∧
      (handle_input_ui E trg input s).current_selected_item = r ∧
      0 ≤ (handle_input_ui E trg input s).current_starting_index ∧
      (handle_input_ui E trg input s).current_starting_index ≤ max 0 (n - 17) ∧
      (handle_input_ui E trg input s).current_starting_index ≤
        (handle_input_ui E trg input s).current_selected_item ∧
      (handle_input_ui E trg input s).current_selected_item ≤
        (handle_input_ui E trg input s).current_starting_index + 16) := by
  have key : ∀ v : Int, v = (if r < 17 then 0 else max 0 (min (r - 8) (n - 17))) →
      0 ≤ v ∧ v ≤ max 0 (n - 17) ∧ v ≤ r ∧ r ≤ v + 16 := by
    intro v hv
    subst hv
    split_ifs with h17
    · refine ⟨le_refl 0, le_max_left _ _, hr0, by omega⟩
    · rcases le_total (r - 8) (n - 17) with h | h
      · rw [min_eq_left h, max_eq_right (by omega : (0 : Int) ≤ r - 8),
          max_eq_right (by omega : (0 : Int) ≤ n - 17)]
        omega
      · rw [min_eq_right h, max_eq_right (by omega : (0 : Int) ≤ n - 17)]
        omega
  constructor
  · intro hnt hlen hdir hname
    have h := menu_accept_go_back_fields E s r n hr hn hnt hlen hdir hname
    have k := key _ h.2.2.1
    rw [h.2.1]
    exact ⟨h.1, rfl, k.1, k.2.1, k.2.2.1, k.2.2.2⟩
  · intro trg input hl hrr hlatch hroot
    have h := handle_input_ui_go_back_fields E s r n trg input hr hn hl hrr hlatch hroot
    have k := key _ h.2.2.1
    rw [h.2.1]
    exact ⟨h.1, rfl, k.1, k.2.1, k.2.2.1, k.2.2.2⟩

/-- Witness of C22: inside a folder entered from cursor 40 of a root list of 60
entries the go-back returns `r = 40` into a list of length `n = 60`, and the
restored selection 40 is inside the window that starts at 32. -/
theorem C22_witness :
    (idle_backend.list_folder_go_back
      (synced_state (Catalog.list_folder_enter 21 40 (sample_catalog (sample_root 60)))
        0 0 0).world).1 = 40 ∧
    idle_backend.list_length (idle_backend.list_folder_go_back
      (synced_state (Catalog.list_folder_enter 21 40 (sample_catalog (sample_root 60)))
        0 0 0).world).2 = 60 ∧
    (menu_accept idle_backend
      (synced_state (Catalog.list_folder_enter 21 40 (sample_catalog (sample_root 60)))
        0 0 0)).current_starting_index ≤ max 0 (60 - 17) ∧
    (menu_accept idle_backend
      (synced_state (Catalog.list_folder_enter 21 40 (sample_catalog (sample_root 60)))
        0 0 0)).current_selected_item ≤
      (menu_accept idle_backend
        (synced_state (Catalog.list_folder_enter 21 40 (sample_catalog (sample_root 60)))
          0 0 0)).current_starting_index + 16 :=
  ⟨by decide, by decide,
    ((C22_go_back_reestablishes_invariants idle_backend
      (synced_state (Catalog.list_folder_enter 21 40 (sample_catalog (sample_root 60))) 0 0 0)
      40 60 (by decide) (by decide) (by decide) (by decide) (by decide)).1
        (by decide) (by decide) (by decide) (by decide)).2.2.2.1,
    ((C22_go_back_reestablishes_invariants idle_backend
      (synced_state (Catalog.list_folder_enter 21 40 (sample_catalog (sample_root 60))) 0 0 0)
      40 60 (by decide) (by decide) (by decide) (by decide) (by decide)).1
        (by decide) (by decide) (by decide) (by decide)).2.2.2.2.2⟩

end OpenMenu
